import Mathlib

/-!
Verification of the prompt-assembly component of the `comfyui-auto-anime-prompts`
plugin, against its natural-language specification.

The Python sources are shallowly embedded: file contents are `String`s, the file
system is a function from path to read outcome, and the process-wide seeded PRNG
(`random.seed(seed)` followed by sequential draws) is abstracted as a stream
`rb : Nat → Nat → Nat` giving, for each draw position and bound `n`, the value of
CPython's `_randbelow(n)` at that point of the seeded stream (both
`random.choice(seq)` and `random.randint(0, n-1)` reduce to `_randbelow`).
Python character classes (`\s`, `\d`, `\w`, `str.strip`) are modelled on their
ASCII fragments, which cover every string occurring in this repository.
-/

/-! ### Python string primitives (`src/core` helpers use `str.strip`, `str.split`, …) -/

/-- ASCII fragment of Python's `str.isspace` / regex `\s`. -/
def pyIsSpace (c : Char) : Bool :=
  c = ' ' || c = '\t' || c = '\n' || c = '\r' || c = '\x0b' || c = '\x0c'

/-- Remove the longest suffix of characters satisfying `p` (Python `str.rstrip`). -/
def stripRightP (p : Char → Bool) : List Char → List Char
  | [] => []
  | c :: l =>
    match stripRightP p l with
    | [] => if p c then [] else [c]
    | d :: r => c :: d :: r

/-- Remove `p`-characters from both ends (Python `str.strip`). -/
def stripBothP (p : Char → Bool) (l : List Char) : List Char :=
  stripRightP p (l.dropWhile p)

/-- Python `s.strip()` (whitespace, both ends). -/
def pyStrip (s : String) : String := ⟨stripBothP pyIsSpace s.data⟩

/-- Python `s.lstrip(cs)` for a character set `cs`. -/
def pyLStripSet (cs : List Char) (s : String) : String :=
  ⟨s.data.dropWhile (fun c => cs.contains c)⟩

/-- Python `s.rstrip(cs)` for a character set `cs`. -/
def pyRStripSet (cs : List Char) (s : String) : String :=
  ⟨stripRightP (fun c => cs.contains c) s.data⟩

/-- Python `s.strip(cs)` for a character set `cs`. -/
def pyStripSet (cs : List Char) (s : String) : String :=
  ⟨stripBothP (fun c => cs.contains c) s.data⟩

/-- Split on a separator character; Python line iteration over a file is
`content.split(chr(10))` up to a trailing empty piece, which the parser skips anyway. -/
def splitOnChar (sep : Char) : List Char → List (List Char)
  | [] => [[]]
  | c :: rest =>
    let r := splitOnChar sep rest
    if c = sep then [] :: r
    else
      match r with
      | [] => [[c]]
      | h :: t => (c :: h) :: t

/-- The lines of a file's content. -/
def pyLines (s : String) : List String :=
  (splitOnChar '\n' s.data).map (fun l => ⟨l⟩)

/-- First occurrence split: `some (before, after)` at the first `sep`, else `none`
(Python `sep in s` + `s.split(sep, 1)`). -/
def splitAtFirst (sep : Char) : List Char → Option (List Char × List Char)
  | [] => none
  | c :: rest =>
    if c = sep then some ([], rest)
    else (splitAtFirst sep rest).map (fun p => (c :: p.1, p.2))

/-- Python `needle in hay` prefix check helper. -/
def startsWithL : List Char → List Char → Bool
  | [], _ => true
  | _ :: _, [] => false
  | a :: as_, b :: bs => a = b && startsWithL as_ bs

/-- Python substring operator `needle in hay` on char lists. -/
def containsL (needle : List Char) : List Char → Bool
  | [] => startsWithL needle []
  | c :: t => startsWithL needle (c :: t) || containsL needle t

/-- Python `needle in hay` on strings. -/
def pyIn (needle hay : String) : Bool := containsL needle.data hay.data

/-! ### `src/core/file_utils.py` -/

/-- A single prompt entry with tags and optional character name
(`file_utils.PromptEntry`). -/
structure PromptEntry where
  tags : String
  character_name : String
deriving DecidableEq

/-- One loop iteration of `parse_prompt_file`: strip the line, skip it when blank,
otherwise split on the first tab (both fields stripped), tags-only when no tab. -/
def parseLine (line : String) : Option PromptEntry :=
  let l := pyStrip line
  if l = "" then none
  else
    match splitAtFirst '\t' l.data with
    | some (a, b) => some ⟨pyStrip ⟨a⟩, pyStrip ⟨b⟩⟩
    | none => some ⟨l, ""⟩

/-- `file_utils.parse_prompt_file`, as a function of the file's text content
(the `open`/read failures are modelled at the node boundary). -/
def parse_prompt_file (content : String) : List PromptEntry :=
  (pyLines content).filterMap parseLine

/-! ### `src/core/constants.py` -/

/-- `constants.QUALITY_TAGS`. -/
def QUALITY_TAGS : String :=
  "masterpiece, best quality, very aesthetic, absurdres, newest, sensitive, " ++
  "highres, complex background, best anatomy, 8k"

/-- `constants.STANDARD_NEGATIVE`. -/
def STANDARD_NEGATIVE : String :=
  "worst quality, low quality, normal quality, lowres, anatomical nonsense, " ++
  "artistic error, bad anatomy, bad hands, missing fingers, extra fingers, extra digit, fewer digits, " ++
  "cropped, jpeg artifacts, signature, watermark, username, blurry, artist name, " ++
  "text, error, 3d, realistic, photo, real life, bad proportions, muscle, muscular"

/-- `constants.DEFAULT_SUFFIX`. -/
def DEFAULT_SUFFIX : String := QUALITY_TAGS

/-- `constants.DEFAULT_NEGATIVE`. -/
def DEFAULT_NEGATIVE : String := STANDARD_NEGATIVE

/-- Python `dict` lookup `d.get(k)` over an association list in insertion order. -/
def dictGet (d : List (String × String)) (k : String) : Option String :=
  (d.find? (fun p => p.1 == k)).map (fun p => p.2)

/-- `constants.PRESETS`. -/
def PRESETS : List (String × String) := [
  ("none", ""),
  ("standard", QUALITY_TAGS),
  ("dynamic", QUALITY_TAGS ++ ", dynamic angle, wind, motion blur, dramatic pose, foreshortening"),
  ("atmospheric", QUALITY_TAGS ++ ", cinematic lighting, Tyndall effect, dramatic shadows, 8k, masterpiece, ultra-detailed textures"),
  ("flat", QUALITY_TAGS ++ ", (vibrant colors:1.2), flat color, vector, bold lines, simple background, colorful, white background"),
  ("dreamy", QUALITY_TAGS ++ ", dreaming aesthetic, ethereal glow, sparkling stars, floating petals, soft pastel lighting"),
  ("gothic", QUALITY_TAGS ++ ", dark theme, gothic, high contrast, chiaroscuro, mysterious, shadows"),
  ("retro", QUALITY_TAGS ++ ", 90s retro anime style, lo-fi aesthetic, grainy texture, muted colors, nostalgic gloom")]

/-- `constants.NEGATIVE_PRESETS`. -/
def NEGATIVE_PRESETS : List (String × String) := [
  ("none", ""),
  ("standard", STANDARD_NEGATIVE ++ ", simple background"),
  ("dynamic", STANDARD_NEGATIVE ++ ", static, standing still, boring, simple background"),
  ("atmospheric", STANDARD_NEGATIVE ++ ", flat color, harsh lighting, simple background"),
  ("flat", STANDARD_NEGATIVE ++ ", 3d, realistic lighting, gradient, photorealistic, shadow, complex background"),
  ("dreamy", STANDARD_NEGATIVE ++ ", harsh lighting, horror, technology, modern"),
  ("gothic", STANDARD_NEGATIVE ++ ", bright, pastel, cheerful, sunshine, simple background"),
  ("retro", STANDARD_NEGATIVE ++ ", 3d, realistic, modern, 4k, crisp, sharp focus")]

/-- `constants.ACTIONS`. -/
def ACTIONS : List String := [
  "eating strawberry crepe, two hands holding crepe, puffy cheeks, cream on nose",
  "drinking bubble tea, one hand holding cup, straw in mouth, looking at viewer, cute",
  "eating ice cream, licking, cone in hand, one hand holding cone, summer, sweet",
  "cooking, stirring, eggs, messy kitchen, confused",
  "peace sign, winking, tilting head, looking at viewer",
  "holding hair, wind blowing, looking up, gentle",
  "finger on lips, shy expression, blushing, looking away, embarrassed",
  "stretching arms up, yawning, sleepy eyes, messy hair, morning",
  "twirling, spinning, skirt flowing",
  "reading book, sitting on bench, focused, glasses, library background",
  "looking at smartphone, scrolling, holding phone with both hands, glowing screen",
  "wearing headphones, listening to music, eyes closed, humming, vibing",
  "writing in notebook, holding pen, thinking, desk, study limit",
  "carrying school bag, walking to school, looking back, waving",
  "adjusting glasses, serious expression, smart, looking at viewer",
  "putting on makeup, holding lipstick, mirror reflection, getting ready",
  "running, dynamic pose, rushing, late",
  "jumping, mid-air, happy, arms up, energetic, blue sky",
  "walking, looking back, holding hands (POV), date",
  "reaching out, hand towards viewer, longing, desperate",
  "leaning forward, looking closely, curious, big eyes",
  "turning around, hair flip, surprised, wide eyes, dynamic hair",
  "laughing, hand over mouth, closed eyes, tears of joy",
  "surprised, gasping, hand on chest, wide eyes, mouth open",
  "annoyed, crossing arms, pouting, looking away, tsundere",
  "daydreaming, looking out window, chin in hand, bored, clouds",
  "scared, shivering, holding knees, hiding, wide eyes",
  "determined, clenched fist, serious eyes, intense stare, wind",
  "confused, tilting head, question mark, finger on chin",
  "crying, tears streaming, red eyes, wiping tears, sad, looking down",
  "hugging knees, head down, lonely, empty gaze, vulnerable",
  "looking at phone, waiting, lonely, disappointed, dim lighting",
  "lying down, staring blankly, arm over eyes, exhausted, melancholic",
  "in rain, wet hair, wet clothes, looking up at sky, melancholic",
  "reaching for falling petals, wind in hair, gentle",
  "holding flower, smelling, looking at viewer, peaceful, delicate",
  "gazing at sunset, profile view, wind, contemplative, serene",
  "sleeping, head on arms, peaceful, drooling slightly, cute",
  "hugging plushie, burying face, oversized hoodie, cozy, warm",
  "holding cat, nuzzling, soft expression, cuddling pet",
  "sitting on chair, legs crossed, relaxed, tea cup",
  "leaning on wall, waiting, cool pose, one leg up",
  "lying on grass, books scattered, looking at sky, summer afternoon",
  "making pottery, pottery wheel, wet clay, dirty hands, wearing apron, focused expression",
  "coding, sitting at desk, dual monitors, computer, mechanical keyboard, cat, cat on keyboard, glowing screen, programming",
  "reading in bed, lying down, holding book, bedside lamp, cozy atmosphere, relaxed",
  "holding pillow, hugging pillow, lying on side, on bed, curved body, comfortable, sleepy",
  "sitting on floor, hugging knees, abandoned warehouse, cluttered room, looking at empty space, The Discarded",
  "sitting in luxury car backseat, looking out window, city lights bokeh, cramped space, restricted posture, The In-Transit",
  "leaning against white wall, facing corner, slumped shoulders, exhaustion, (hollow eyes:1.3), The Wall Protocol",
  "snowing, outdoor campfire, winter gear, shivering, (glassy eyes:1.4), loneliness, The Cold Waiting",
  "sitting on floor, hiding face in knees, wall with photos, happy memories on wall, messy room, trash can, dirty floor, (crying:1.2), The Bittersweet Wall",
  "sitting at table, small cake, single candle, party hat, dark room, shadows, celebrating alone, (tears:1.2), The Solo Birthday",
  "standing in rain, holding two umbrellas, looking at watch, waiting, wet clothes, disappointed, (lonely:1.3), The Rain Wait",
  "looking at smartphone, dark room, glowing screen, (crying:1.4), tears on screen, message read, The Phone Ghost"]

/-- `constants.BACKGROUNDS`. -/
def BACKGROUNDS : List String := [
  "school classroom, wooden desk, blackboard, windows, sunlight, afternoon",
  "school hallway, lockers, polished floor, sunlight rays, anime school",
  "cherry blossom park, pink flower trees, falling petals, park bench, spring path",
  "sunny beach, ocean waves, sky, clouds, summer, horizon",
  "flower garden, blooming flowers, garden fence, nature, soft sunlight",
  "cluttered bedroom, unmade bed, clothes on floor, computer desk, plushies, lived-in feel",
  "cozy bedroom, fairy lights on wall, pastel bedding, night, warm lamp light",
  "modern kitchen, gas stove, refrigerator, kitchen counter, sink, domestic setting",
  "living room, sofa, television, coffee table, sunlight through curtains",
  "bathroom, tiled walls, bathtub, mirror, steam, soft lighting",
  "rainy city street, reflection in puddles, night, atmospheric",
  "convenience store front, bright lights, night, glass door, shelves",
  "rooftop at sunset, chain link fence, warm sky, city skyline, wind",
  "train station platform, waiting area, empty seats, evening light, nostalgic"]

/-- `constants.CAMERA_EFFECTS`. -/
def CAMERA_EFFECTS : List String := [
  "from above, looking down, depth of field",
  "from below, looking up, dramatic angle",
  "close-up, portrait, bokeh, focus on face",
  "wide shot, full body, distant view",
  "side view, profile, wind, hair flowing",
  "pov, first person view, intimate, close"]

/-- `constants.FLUX_PREFIX`. -/
def FLUX_PREFIX : String := "A high-quality anime illustration of"

/-- `constants.FLUX_STYLE_PREFIX`. -/
def FLUX_STYLE_PREFIX : String := "The art style is"

/-- `constants.FLUX_CONNECTORS`. -/
def FLUX_CONNECTORS : List (String × String) := [
  ("action", "She is currently"),
  ("background", "The scene takes place in"),
  ("camera", "The image is captured"),
  ("mood", "Her expression is")]

/-! ### `src/core/rednote_utils.py` -/

/-- `rednote_utils.REDNOTE_NEG_BASE`. -/
def REDNOTE_NEG_BASE : String :=
  "worst quality, low quality, normal quality, lowres, anatomical nonsense, conjoined, bad ai-generated, plastic hair, plastic skin, " ++
  "artistic error, bad anatomy, bad hands, missing fingers, extra digit, fewer digits, " ++
  "cropped, jpeg artifacts, signature, watermark, username, blurry, artist name, " ++
  "text, error, 3d, realistic, photo, real life, bad proportions, muscle, muscular"

/-- `rednote_utils.REDNOTE_NEG_SAFETY`. -/
def REDNOTE_NEG_SAFETY : String :=
  "(large breasts:1.5), (big breasts:1.5), (cleavage:1.4), nsfw, nude, " ++
  "(nipples:1.5), (visible nipples:1.4), (areola:1.5), " ++
  "(see-through:1.4), (transparent:1.4), (child:1.4), (loli:1.4), " ++
  "(rating_explicit:1.3), (rating_questionable:1.3), " ++
  "(mascara:1.5), (bandaid:1.5), (bandage:1.5), (messy makeup:1.3)"

/-- `rednote_utils.REDNOTE_STYLE`. -/
def REDNOTE_STYLE : String :=
  ", dreamy atmosphere, ethereal, delicate, 4k, high resolution, ultra-detailed, scenery"

/-- `rednote_utils.REDNOTE_CHARACTER`. -/
def REDNOTE_CHARACTER : String :=
  "(solo:1.5), (perfect cute face:1.4), (beautiful detailed eyes:1.3), (sparkling eyes:1.3), " ++
  "(flat chest:1.2), (small breasts:1.2), (mature:1.2), (skinny:1.3), " ++
  "messy hair, big fluffy hair, big fluffy curls, large ribbons, fluffy volume, " ++
  "rating_safe"

/-- `rednote_utils.REDNOTE_SAFETY_SHORTS`. -/
def REDNOTE_SAFETY_SHORTS : String := "(pretty white lace safety shorts:1.3)"

/-- `rednote_utils.get_mood_prompt`; the float `level` is embedded as an exact
rational, and the comparison literals 0.2 / 0.4 / 0.6 / 0.8 as the exact
rationals `mkRat k 10` (the comparisons in the source are against the same
literals the slider steps through, so the banding is preserved). -/
def get_mood_prompt (level : ℚ) : String :=
  if level < mkRat 2 10 then "(slight smile:1.2), (gentle expression:1.1), (obedient:1.1), demure"
  else if level < mkRat 4 10 then "(expressionless:1.3), (neutral face:1.2), (serious:1.2), (looking down:1.1)"
  else if level < mkRat 6 10 then "(stoned face:1.3), (hollow gaze:1.1), (dissociation:1.1)"
  else if level < mkRat 8 10 then "(annoyed expression:1.3), (glaring:1.2), (displeased:1.2)"
  else "(stubborn:1.5), (pouting:1.4), (grumpy:1.4), (angry:1.2), (looking away:1.1)"

/-! ### The PRNG and file-system boundary -/

/-- The seeded random stream: `rb pos n` is the value of CPython's
`_randbelow(n)` at the `pos`-th draw after `random.seed(seed)`. -/
abbrev Rb := Nat → Nat → Nat

/-- Outcome of opening and reading a prompt file in text mode.
`decodeError` is a `UnicodeDecodeError` (a `ValueError`, not an `OSError`)
raised while decoding the file as UTF-8; `notFound` / `osError` carry `str(e)`. -/
inductive ReadResult where
  | ok (content : String)
  | notFound (msg : String)
  | osError (msg : String)
  | decodeError (msg : String)
deriving DecidableEq

/-- The file system visible to the nodes. -/
abbrev FileReader := String → ReadResult

/-- `constants.PROMPT_DIR`; at runtime it is resolved next to the installed
package, which the claims never depend on, so it is modelled as a fixed root. -/
def PROMPT_DIR : String := "prompts"

/-- `file_utils.get_prompt_file_path`. -/
def get_prompt_file_path (filename : String) : String := PROMPT_DIR ++ "/" ++ filename

/-- `random.choice(l)` drawn at stream position `pos`, i.e. `l[_randbelow(len(l))]`;
the nodes evaluate it only on the non-empty constant fragment lists, where the
out-of-range default is unreachable for a sound stream. -/
def pyChoice (rb : Rb) (pos : Nat) (l : List String) : String :=
  l.getD (rb pos l.length) ""

/-! ### `src/core/random_utils.py` -/

/-- `random_utils.SAFETY_TRIGGER_KEYWORDS`. -/
def SAFETY_TRIGGER_KEYWORDS : List String := ["sitting", "hugging", "lying"]

/-- `random_utils.pick_random`: `rng.choice(items)`, i.e.
`items[_randbelow(len(items))]`; `none` models the `IndexError` that
`random.choice` raises on an empty sequence (`_randbelow(0)` returns 0 and
the subscript fails). -/
def pick_random (rb : Rb) (pos : Nat) (items : List String) : Option String :=
  items.get? (rb pos items.length)

/-- `random_utils.pick_action`. -/
def pick_action (rb : Rb) (pos : Nat) : Option String := pick_random rb pos ACTIONS

/-- `random_utils.pick_background`. -/
def pick_background (rb : Rb) (pos : Nat) : Option String := pick_random rb pos BACKGROUNDS

/-- `random_utils.pick_camera`. -/
def pick_camera (rb : Rb) (pos : Nat) : Option String := pick_random rb pos CAMERA_EFFECTS

/-- `random_utils.needs_safety_shorts`: `any(keyword in action for keyword in
SAFETY_TRIGGER_KEYWORDS)`. -/
def needs_safety_shorts (action : String) : Bool :=
  SAFETY_TRIGGER_KEYWORDS.any (fun keyword => pyIn keyword action)

/-! ### `AutoPromptRedNote.clean_tag` (`src/nodes/prompt_rednote.py`)

Each `re.sub` is embedded as a left-to-right scanner that replaces
non-overlapping matches exactly as CPython's `re` does (leftmost match, greedy
quantifiers, scanning resuming after the match). The scanners that can skip
more than one character per step take their fuel from the input length, which
bounds the number of steps since every step consumes at least one character. -/

/-- Scanner for step 1, `re.sub(r":\d+(\.\d+)?", "", text)`. -/
def removeWeightsF : Nat → List Char → List Char
  | 0, l => l
  | _ + 1, [] => []
  | fuel + 1, c :: l =>
    if c = ':' then
      match l.span Char.isDigit with
      | ([], _) => ':' :: removeWeightsF fuel l
      | (_ :: _, rest) =>
        match rest with
        | '.' :: r2 =>
          match r2.span Char.isDigit with
          | ([], _) => removeWeightsF fuel rest
          | (_ :: _, r3) => removeWeightsF fuel r3
        | _ => removeWeightsF fuel rest
    else c :: removeWeightsF fuel l

/-- Step 1 of `clean_tag`: remove weights such as `:1.3`, `:0.5`, `:1`. -/
def removeWeights (l : List Char) : List Char := removeWeightsF l.length l

/-- Case-insensitive literal match: `some rest` when `l` starts with `pat`
(pattern given in lowercase). -/
def ciMatch : List Char → List Char → Option (List Char)
  | [], l => some l
  | _ :: _, [] => none
  | p :: ps, c :: cs => if c.toLower = p then ciMatch ps cs else none

/-- ASCII fragment of regex `\w` (used for the `\b` boundaries around `1girl`). -/
def isWordChar (c : Char) : Bool := c.isAlphanum || c = '_'

/-- The `\b` after `1girl`: end of input or a non-word character. -/
def boundaryOk : Option Char → Bool
  | none => true
  | some c => !isWordChar c

/-- Scanner for step 4, `re.sub(r"\b1girl\b", "", text, flags=re.IGNORECASE)`;
`prevWord` says whether the previous character of the original text is a word
character (so that `\b` holds exactly when it is not). -/
def remove1girlF : Nat → Bool → List Char → List Char
  | 0, _, l => l
  | _ + 1, _, [] => []
  | fuel + 1, prevWord, c :: l =>
    match if prevWord then none else ciMatch ['1', 'g', 'i', 'r', 'l'] (c :: l) with
    | some rest =>
      if boundaryOk rest.head? then remove1girlF fuel true rest
      else c :: remove1girlF fuel (isWordChar c) l
    | none => c :: remove1girlF fuel (isWordChar c) l

/-- Step 4 of `clean_tag`: remove the standalone token `1girl`, case-insensitively. -/
def remove1girl (l : List Char) : List Char := remove1girlF l.length false l

/-- Scanner for step 4b, `re.sub(r"(?i)lora triggers?:?", "", text)`. -/
def removeLoraF : Nat → List Char → List Char
  | 0, l => l
  | _ + 1, [] => []
  | fuel + 1, c :: l =>
    match ciMatch ['l', 'o', 'r', 'a', ' ', 't', 'r', 'i', 'g', 'g', 'e', 'r'] (c :: l) with
    | some rest =>
      let rest := match rest with
        | 's' :: r => r
        | 'S' :: r => r
        | r => r
      let rest := match rest with
        | ':' :: r => r
        | r => r
      removeLoraF fuel rest
    | none => c :: removeLoraF fuel l

/-- Step 4b of `clean_tag`: remove `lora trigger(s)(:)`, case-insensitively. -/
def removeLora (l : List Char) : List Char := removeLoraF l.length l

/-- Scanner for step 5, `re.sub(r",\s*", ", ", text)`: each comma plus the
whitespace run after it becomes a comma and a single space. -/
def commaSpaceF : Nat → List Char → List Char
  | 0, l => l
  | _ + 1, [] => []
  | fuel + 1, c :: l =>
    if c = ',' then ',' :: ' ' :: commaSpaceF fuel (l.dropWhile pyIsSpace)
    else c :: commaSpaceF fuel l

/-- Step 5 of `clean_tag`: normalize comma spacing. -/
def commaSpace (l : List Char) : List Char := commaSpaceF l.length l

/-- Scanner for step 6, `re.sub(r"\s+", " ", text)`: each whitespace run
becomes a single space. -/
def collapseWsF : Nat → List Char → List Char
  | 0, l => l
  | _ + 1, [] => []
  | fuel + 1, c :: l =>
    if pyIsSpace c then ' ' :: collapseWsF fuel (l.dropWhile pyIsSpace)
    else c :: collapseWsF fuel l

/-- Step 6 of `clean_tag`: collapse whitespace runs to a single space. -/
def collapseWs (l : List Char) : List Char := collapseWsF l.length l

/-- `text = re.sub(r":\d+(\.\d+)?", "", text)`. -/
def ctStep1 (s : String) : String := ⟨removeWeights s.data⟩

/-- The four `text.replace` calls removing `(`, `)`, `\x7b`, `\x7d`. -/
def ctStep2 (s : String) : String :=
  ⟨(((s.data.filter (fun c => c != '(')).filter (fun c => c != ')')).filter
      (fun c => c != '\x7b')).filter (fun c => c != '\x7d')⟩

/-- `text.replace("_", " ")`. -/
def ctStep3 (s : String) : String :=
  ⟨s.data.map (fun c => if c = '_' then ' ' else c)⟩

/-- `re.sub(r"\b1girl\b", "", text, flags=re.IGNORECASE)`. -/
def ctStep4 (s : String) : String := ⟨remove1girl s.data⟩

/-- `re.sub(r"(?i)lora triggers?:?", "", text)`. -/
def ctStep5 (s : String) : String := ⟨removeLora s.data⟩

/-- `re.sub(r",\s*", ", ", text)`. -/
def ctStep6 (s : String) : String := ⟨commaSpace s.data⟩

/-- `re.sub(r"\s+", " ", text).strip()`. -/
def ctStep7 (s : String) : String := pyStrip ⟨collapseWs s.data⟩

/-- `text.strip(", ")`. -/
def ctStep8 (s : String) : String := pyStripSet [',', ' '] s

/-- `AutoPromptRedNote.clean_tag`. -/
def clean_tag (s : String) : String :=
  if s = "" then ""
  else ctStep8 (ctStep7 (ctStep6 (ctStep5 (ctStep4 (ctStep3 (ctStep2 (ctStep1 s)))))))

/-! ### `src/nodes/prompt_loader.py` — `AutoPromptLoader.load_prompt`

Each node returns `Except String result`: `.ok` is a normal return (including
the placeholder-error returns), `.error msg` models a Python exception
propagating past the node boundary (the node's `except` clauses do not catch
`UnicodeDecodeError`, which is a `ValueError`, not an `OSError`). -/

/-- `", ".join(filter(None, parts))`. -/
def joinParts (parts : List String) : String :=
  String.intercalate ", " (parts.filter (fun s => s != ""))

/-- Result tuple of `load_prompt`:
`(prompt, negative, character_name, current_index, total_prompts)`. -/
abbrev LoaderResult := String × String × String × Nat × Nat

/-- `AutoPromptLoader.load_prompt`. -/
def load_prompt (fs : FileReader) (rb : Rb) (prompt_file : String) (index : Nat)
    (mode preset : String) (random_action random_background random_camera : Bool)
    (custom_positive custom_negative : String) : Except String LoaderResult :=
  match fs (get_prompt_file_path prompt_file) with
  | .notFound _ => .ok ("Error: " ++ prompt_file ++ " not found", "", "", 0, 0)
  | .osError m => .ok ("Error: " ++ m, "", "", 0, 0)
  | .decodeError m => .error m
  | .ok content =>
    let prompts := parse_prompt_file content
    if prompts = [] then .ok ("Error: No prompts found in file", "", "", 0, 0)
    else
      let total := prompts.length
      let selected_index := if mode = "random" then rb 0 total else index % total
      let pos : Nat := if mode = "random" then 1 else 0
      let entry := prompts.getD selected_index ⟨"", ""⟩
      let preset_suffix := (dictGet PRESETS preset).getD DEFAULT_SUFFIX
      let preset_negative := (dictGet NEGATIVE_PRESETS preset).getD DEFAULT_NEGATIVE
      let parts : List String := []
      let parts :=
        if preset_suffix ≠ "" then
          let clean_preset := pyStrip (pyLStripSet [',', ' '] preset_suffix)
          if clean_preset ≠ "" then parts ++ [clean_preset] else parts
        else parts
      let character_tags := pyRStripSet [','] (pyStrip entry.tags)
      let parts := if character_tags ≠ "" then parts ++ [character_tags] else parts
      let parts := if random_action then parts ++ [pyChoice rb pos ACTIONS] else parts
      let pos := if random_action then pos + 1 else pos
      let parts := if random_background then parts ++ [pyChoice rb pos BACKGROUNDS] else parts
      let pos := if random_background then pos + 1 else pos
      let parts := if random_camera then parts ++ [pyChoice rb pos CAMERA_EFFECTS] else parts
      let parts :=
        if pyStrip custom_positive ≠ "" then
          let custom := pyStrip (pyLStripSet [','] (pyStrip custom_positive))
          if custom ≠ "" then parts ++ [custom] else parts
        else parts
      let final_prompt := joinParts parts
      let final_negative :=
        if pyStrip custom_negative ≠ "" then
          if preset_negative ≠ "" then preset_negative ++ ", " ++ pyStrip custom_negative
          else pyStrip custom_negative
        else preset_negative
      .ok (final_prompt, final_negative, entry.character_name, selected_index, total)

/-! ### `src/nodes/prompt_batch.py` — `AutoPromptBatch.load_batch` -/

/-- One iteration of the `load_batch` loop (batch item `i`, stream position
`pos`); returns the prompt and the next stream position. -/
def batchItem (rb : Rb) (prompts : List PromptEntry) (clean_preset : String)
    (random_action random_background random_camera : Bool)
    (custom_positive : String) (start_index i pos : Nat) : String × Nat :=
  let idx := (start_index + i) % prompts.length
  let entry := prompts.getD idx ⟨"", ""⟩
  let parts : List String := []
  let parts := if clean_preset ≠ "" then parts ++ [clean_preset] else parts
  let character_tags := pyRStripSet [','] (pyStrip entry.tags)
  let parts := if character_tags ≠ "" then parts ++ [character_tags] else parts
  let parts := if random_action then parts ++ [pyChoice rb pos ACTIONS] else parts
  let pos := if random_action then pos + 1 else pos
  let parts := if random_background then parts ++ [pyChoice rb pos BACKGROUNDS] else parts
  let pos := if random_background then pos + 1 else pos
  let parts := if random_camera then parts ++ [pyChoice rb pos CAMERA_EFFECTS] else parts
  let pos := if random_camera then pos + 1 else pos
  let parts :=
    if pyStrip custom_positive ≠ "" then
      let custom := pyStrip (pyLStripSet [','] (pyStrip custom_positive))
      if custom ≠ "" then parts ++ [custom] else parts
    else parts
  (joinParts parts, pos)

/-- The `for i in range(batch_size)` loop of `load_batch`: `n` iterations left,
current item index `i`, current stream position `pos`. -/
def batchLoop (rb : Rb) (prompts : List PromptEntry) (clean_preset : String)
    (random_action random_background random_camera : Bool)
    (custom_positive : String) (start_index : Nat) :
    Nat → Nat → Nat → List String × Nat
  | 0, _, pos => ([], pos)
  | n + 1, i, pos =>
    let r := batchItem rb prompts clean_preset random_action random_background
      random_camera custom_positive start_index i pos
    let rest := batchLoop rb prompts clean_preset random_action random_background
      random_camera custom_positive start_index n (i + 1) r.2
    (r.1 :: rest.1, rest.2)

/-- `AutoPromptBatch.load_batch`. -/
def load_batch (fs : FileReader) (rb : Rb) (prompt_file : String)
    (start_index batch_size : Nat) (preset : String)
    (random_action random_background random_camera : Bool)
    (custom_positive custom_negative : String) : Except String (List String × String) :=
  match fs (get_prompt_file_path prompt_file) with
  | .notFound _ => .ok (["Error: " ++ prompt_file ++ " not found"], "")
  | .osError m => .ok (["Error: " ++ m], "")
  | .decodeError m => .error m
  | .ok content =>
    let prompts := parse_prompt_file content
    if prompts = [] then .ok (["Error: No prompts found"], "")
    else
      let preset_suffix := (dictGet PRESETS preset).getD DEFAULT_SUFFIX
      let preset_negative := (dictGet NEGATIVE_PRESETS preset).getD DEFAULT_NEGATIVE
      let clean_preset :=
        if preset_suffix ≠ "" then pyStrip (pyLStripSet [',', ' '] preset_suffix) else ""
      let result := (batchLoop rb prompts clean_preset random_action random_background
        random_camera custom_positive start_index batch_size 0 0).1
      let final_negative :=
        if pyStrip custom_negative ≠ "" then
          if preset_negative ≠ "" then preset_negative ++ ", " ++ pyStrip custom_negative
          else pyStrip custom_negative
        else preset_negative
      .ok (result, final_negative)

/-! ### `src/nodes/prompt_combiner.py` — `AutoPromptCombiner.combine_prompts` -/

/-- `AutoPromptCombiner.MAX_TOTAL_PROMPTS`. -/
def MAX_TOTAL_PROMPTS : Nat := 100

/-- Body of the inner (style) loop of `combine_prompts`, for character entry
`char` and style offset `j`, drawing from stream position `pos`. -/
def combinerItem (rb : Rb) (styles : List PromptEntry) (style_start_index : Nat)
    (clean_preset : String) (random_action random_background random_camera : Bool)
    (custom_positive : String) (char : PromptEntry) (j pos : Nat) : String × Nat :=
  let style_idx := (style_start_index + j) % styles.length
  let style := styles.getD style_idx ⟨"", ""⟩
  let parts : List String := []
  let parts := if clean_preset ≠ "" then parts ++ [clean_preset] else parts
  let style_tags := pyRStripSet [','] (pyStrip style.tags)
  let parts := if style_tags ≠ "" then parts ++ [style_tags] else parts
  let char_tags := pyRStripSet [','] (pyStrip char.tags)
  let parts := if char_tags ≠ "" then parts ++ [char_tags] else parts
  let parts := if random_action then parts ++ [pyChoice rb pos ACTIONS] else parts
  let pos := if random_action then pos + 1 else pos
  let parts := if random_background then parts ++ [pyChoice rb pos BACKGROUNDS] else parts
  let pos := if random_background then pos + 1 else pos
  let parts := if random_camera then parts ++ [pyChoice rb pos CAMERA_EFFECTS] else parts
  let pos := if random_camera then pos + 1 else pos
  let parts :=
    if pyStrip custom_positive ≠ "" then
      let custom := pyStrip (pyLStripSet [','] (pyStrip custom_positive))
      if custom ≠ "" then parts ++ [custom] else parts
    else parts
  (joinParts parts, pos)

/-- The `for style_offset in range(style_count)` loop: `n` iterations left at
style offset `j`. -/
def combinerStyleLoop (rb : Rb) (styles : List PromptEntry) (style_start_index : Nat)
    (clean_preset : String) (random_action random_background random_camera : Bool)
    (custom_positive : String) (char : PromptEntry) :
    Nat → Nat → Nat → List String × Nat
  | 0, _, pos => ([], pos)
  | n + 1, j, pos =>
    let r := combinerItem rb styles style_start_index clean_preset random_action
      random_background random_camera custom_positive char j pos
    let rest := combinerStyleLoop rb styles style_start_index clean_preset random_action
      random_background random_camera custom_positive char n (j + 1) r.2
    (r.1 :: rest.1, rest.2)

/-- The `for char_offset in range(char_count)` loop: `n` iterations left at
character offset `i`. -/
def combinerCharLoop (rb : Rb) (characters styles : List PromptEntry)
    (char_start_index style_start_index style_count : Nat) (clean_preset : String)
    (random_action random_background random_camera : Bool) (custom_positive : String) :
    Nat → Nat → Nat → List String × Nat
  | 0, _, pos => ([], pos)
  | n + 1, i, pos =>
    let char_idx := (char_start_index + i) % characters.length
    let char := characters.getD char_idx ⟨"", ""⟩
    let block := combinerStyleLoop rb styles style_start_index clean_preset random_action
      random_background random_camera custom_positive char style_count 0 pos
    let rest := combinerCharLoop rb characters styles char_start_index style_start_index
      style_count clean_preset random_action random_background random_camera
      custom_positive n (i + 1) block.2
    (block.1 ++ rest.1, rest.2)

/-- `AutoPromptCombiner.combine_prompts`. -/
def combine_prompts (fs : FileReader) (rb : Rb) (character_file style_file : String)
    (char_start_index style_start_index char_count style_count : Nat) (preset : String)
    (random_action random_background random_camera : Bool)
    (custom_positive custom_negative : String) : Except String (List String × String) :=
  match fs (get_prompt_file_path character_file) with
  | .notFound m => .ok (["Error loading characters: " ++ m], "")
  | .osError m => .ok (["Error loading characters: " ++ m], "")
  | .decodeError m => .error m
  | .ok char_content =>
    match fs (get_prompt_file_path style_file) with
    | .notFound m => .ok (["Error loading styles: " ++ m], "")
    | .osError m => .ok (["Error loading styles: " ++ m], "")
    | .decodeError m => .error m
    | .ok style_content =>
      let characters := parse_prompt_file char_content
      let styles := parse_prompt_file style_content
      if characters = [] then .ok (["Error: No characters found"], "")
      else if styles = [] then .ok (["Error: No styles found"], "")
      else
        let total_prompts := char_count * style_count
        if total_prompts > MAX_TOTAL_PROMPTS then
          .ok (["Error: Total prompts (" ++ toString total_prompts ++ ") exceeds max (" ++
            toString MAX_TOTAL_PROMPTS ++ ")"], "")
        else
          let preset_suffix := (dictGet PRESETS preset).getD DEFAULT_SUFFIX
          let preset_negative := (dictGet NEGATIVE_PRESETS preset).getD DEFAULT_NEGATIVE
          let clean_preset :=
            if preset_suffix ≠ "" then pyStrip (pyLStripSet [',', ' '] preset_suffix) else ""
          let result := (combinerCharLoop rb characters styles char_start_index
            style_start_index style_count clean_preset random_action random_background
            random_camera custom_positive char_count 0 0).1
          let final_negative :=
            if pyStrip custom_negative ≠ "" then
              if preset_negative ≠ "" then preset_negative ++ ", " ++ pyStrip custom_negative
              else pyStrip custom_negative
            else preset_negative
          .ok (result, final_negative)

/-! ### `src/nodes/prompt_rednote.py` — `AutoPromptRedNote.generate_rednote` -/

/-- The per-invocation context of `generate_rednote` (parsed files plus the
user parameters read inside the batch loop). -/
structure RednoteCtx where
  rb : Rb
  chars : List PromptEntry
  styles : List PromptEntry
  target_model : String
  start_index : Nat
  preset : String
  mode : String
  mood_level : ℚ
  enable_style_lock : Bool
  random_action : Bool
  random_background : Bool
  random_camera : Bool
  custom_positive : String

/-- The tag-dialect ("Illustrious") branch of the batch loop: builds the
`parts` list (quality layer, style, character, action plus conditional safety
shorts, background, camera, mood, RedNote enforcer, custom positive) and
returns it with the next stream position. -/
def rednoteTagParts (ctx : RednoteCtx) (entry : PromptEntry) (style_tag : String)
    (pos : Nat) : List String × Nat :=
  let parts : List String := []
  let parts :=
    if ctx.preset = "RedNote" then
      parts ++ [QUALITY_TAGS] ++ [pyStrip (pyLStripSet [',', ' '] REDNOTE_STYLE)]
    else
      let preset_tags := (dictGet PRESETS ctx.preset).getD ""
      if preset_tags ≠ "" then parts ++ [preset_tags] else parts
  let parts := if style_tag ≠ "" then parts ++ [style_tag] else parts
  let parts := parts ++ [pyRStripSet [','] (pyStrip entry.tags)]
  let selected_action := pyChoice ctx.rb pos ACTIONS
  let parts :=
    if ctx.random_action then
      let parts := parts ++ [selected_action]
      if ["sitting", "hugging", "lying"].any (fun x => pyIn x selected_action) then
        parts ++ [REDNOTE_SAFETY_SHORTS]
      else parts
    else parts
  let pos := if ctx.random_action then pos + 1 else pos
  let parts := if ctx.random_background then parts ++ [pyChoice ctx.rb pos BACKGROUNDS] else parts
  let pos := if ctx.random_background then pos + 1 else pos
  let parts := if ctx.random_camera then parts ++ [pyChoice ctx.rb pos CAMERA_EFFECTS] else parts
  let pos := if ctx.random_camera then pos + 1 else pos
  let parts := parts ++ [get_mood_prompt ctx.mood_level]
  let parts :=
    if ctx.preset = "RedNote" then
      parts ++ [pyStrip (pyLStripSet [',', ' '] REDNOTE_CHARACTER)]
    else parts
  let parts := if ctx.custom_positive ≠ "" then parts ++ [ctx.custom_positive] else parts
  (parts, pos)

/-- `FLUX_CONNECTORS[key]`. -/
def fluxConnector (key : String) : String := (dictGet FLUX_CONNECTORS key).getD ""

/-- The natural-language ("Flux/Qwen") branch of the batch loop: builds the
sentence-style prompt and returns it with the next stream position. -/
def rednoteFluxPrompt (ctx : RednoteCtx) (entry : PromptEntry) (style_tag : String)
    (pos : Nat) : String × Nat :=
  let clean_char_tags := clean_tag entry.tags
  let clean_char_name := clean_tag entry.character_name
  let prompt_text :=
    FLUX_PREFIX ++ " " ++ clean_char_name ++ ", a girl with " ++ clean_char_tags ++ "."
  let prompt_text :=
    if ctx.random_action then
      prompt_text ++ " " ++ fluxConnector "action" ++ " " ++
        clean_tag (pyChoice ctx.rb pos ACTIONS) ++ "."
    else prompt_text
  let pos := if ctx.random_action then pos + 1 else pos
  let prompt_text :=
    if ctx.random_background then
      prompt_text ++ " " ++ fluxConnector "background" ++ " " ++
        clean_tag (pyChoice ctx.rb pos BACKGROUNDS) ++ "."
    else prompt_text
  let pos := if ctx.random_background then pos + 1 else pos
  let mood_tags := get_mood_prompt ctx.mood_level
  let prompt_text :=
    if mood_tags ≠ "" then
      prompt_text ++ " " ++ fluxConnector "mood" ++ " " ++ clean_tag mood_tags ++ "."
    else prompt_text
  let prompt_text :=
    if style_tag ≠ "" ∨ ctx.random_camera then
      let cam := if ctx.random_camera then pyChoice ctx.rb pos CAMERA_EFFECTS else ""
      let clean_style := clean_tag style_tag
      let clean_cam := clean_tag cam
      let prompt_text :=
        if clean_style ≠ "" then
          prompt_text ++ " " ++ FLUX_STYLE_PREFIX ++ " " ++ clean_style ++ "."
        else prompt_text
      if clean_cam ≠ "" then prompt_text ++ " " ++ clean_cam ++ "." else prompt_text
    else prompt_text
  let pos := if ctx.random_camera then pos + 1 else pos
  let prompt_text :=
    if ctx.custom_positive ≠ "" then
      prompt_text ++ " " ++ clean_tag ctx.custom_positive ++ "."
    else prompt_text
  (prompt_text, pos)

/-- One iteration of the `generate_rednote` batch loop: select the character
and the style, then build the prompt in the dialect selected by
`target_model`; returns `(prompt, character_name, mood_tags, next position)`. -/
def rednoteItem (ctx : RednoteCtx) (i pos : Nat) : String × String × String × Nat :=
  let current_index := ctx.start_index + i
  let total_chars := ctx.chars.length
  let total_styles := ctx.styles.length
  let char_idx :=
    if ctx.mode = "random" then ctx.rb pos total_chars else current_index % total_chars
  let pos := if ctx.mode = "random" then pos + 1 else pos
  let entry := ctx.chars.getD char_idx ⟨"", ""⟩
  let style_tag :=
    if ctx.styles ≠ [] then
      let style_idx :=
        if ctx.enable_style_lock then current_index % total_styles
        else ctx.rb pos total_styles
      pyRStripSet [','] (pyStrip (ctx.styles.getD style_idx ⟨"", ""⟩).tags)
    else ""
  let pos := if ctx.styles ≠ [] ∧ ¬ctx.enable_style_lock then pos + 1 else pos
  let mood_tags := get_mood_prompt ctx.mood_level
  if ctx.target_model = "Flux/Qwen (Natural)" then
    let r := rednoteFluxPrompt ctx entry style_tag pos
    (r.1, entry.character_name, mood_tags, r.2)
  else
    let r := rednoteTagParts ctx entry style_tag pos
    (joinParts r.1, entry.character_name, mood_tags, r.2)

/-- The `for i in range(batch_size)` loop of `generate_rednote`, accumulating
the prompt, character-name and mood outputs. -/
def rednoteLoop (ctx : RednoteCtx) : Nat → Nat → Nat →
    List String × List String × List String
  | 0, _, _ => ([], [], [])
  | n + 1, i, pos =>
    let r := rednoteItem ctx i pos
    let rest := rednoteLoop ctx n (i + 1) r.2.2.2
    (r.1 :: rest.1, r.2.1 :: rest.2.1, r.2.2.1 :: rest.2.2)

/-- Result tuple of `generate_rednote`:
`(prompts, negative, character_names, mood_tags)`. -/
abbrev RednoteResult := List String × String × List String × List String

/-- `AutoPromptRedNote.generate_rednote`; its `try`/`except Exception` converts
any read failure of either file into the placeholder return, so this node never
propagates an exception. -/
def generate_rednote (fs : FileReader) (rb : Rb) (prompt_file style_file : String)
    (target_model : String) (start_index batch_size : Nat) (preset mode : String)
    (mood_level : ℚ) (enable_style_lock random_action random_background random_camera : Bool)
    (custom_positive custom_negative : String) : Except String RednoteResult :=
  match fs (get_prompt_file_path prompt_file), fs (get_prompt_file_path style_file) with
  | .ok char_content, .ok style_content =>
    let char_prompts := parse_prompt_file char_content
    let style_prompts := parse_prompt_file style_content
    if char_prompts = [] then .ok (["Error: No prompts"], "", ["Error"], ["Error"])
    else
      let is_flux := target_model = "Flux/Qwen (Natural)"
      let ctx : RednoteCtx :=
        ⟨rb, char_prompts, style_prompts, target_model, start_index, preset, mode,
          mood_level, enable_style_lock, random_action, random_background, random_camera,
          custom_positive⟩
      let out := rednoteLoop ctx batch_size 0 0
      let final_negative :=
        if is_flux then ""
        else
          let negative_parts : List String :=
            if preset = "RedNote" then [REDNOTE_NEG_BASE, REDNOTE_NEG_SAFETY]
            else
              let preset_neg := (dictGet NEGATIVE_PRESETS preset).getD ""
              if preset_neg ≠ "" then [preset_neg] else [REDNOTE_NEG_BASE]
          let negative_parts :=
            if pyStrip custom_negative ≠ "" then negative_parts ++ [pyStrip custom_negative]
            else negative_parts
          joinParts negative_parts
      .ok (out.1, final_negative, out.2.1, out.2.2)
  | _, _ => .ok (["Error loading files"], "", ["Error"], ["Error"])

/-! ### Specification-side definitions

These follow the wording of the (amended) claims rather than the code, and are
proved equal to, or characterizations of, the source-side definitions above. -/

/-- Modelled from the amended claim C3 wording: each line is first trimmed of
surrounding whitespace (tabs included); a line that is then empty is skipped;
otherwise the line is split at its first remaining tab with both fields
trimmed, and `character_name` defaults to `""` when no tab remains. -/
def parseLineSpec (line : String) : Option PromptEntry :=
  let t := pyStrip line
  if t.data.isEmpty then none
  else
    let i := t.data.findIdx (fun c => c = '\t')
    if i < t.data.length then
      some ⟨pyStrip ⟨t.data.take i⟩, pyStrip ⟨t.data.drop (i + 1)⟩⟩
    else some ⟨t, ""⟩

/-- The eight-step Tag Cleaner pipeline in the claim C4 wording, with the final
step as stated in the claim: trailing-only trim of commas/spaces. -/
def cleanTagSpecClaim (s : String) : String :=
  let s1 : String := ⟨removeWeights s.data⟩
  let s2 : String := ⟨s1.data.filter (fun c => !(['(', ')', '\x7b', '\x7d'].contains c))⟩
  let s3 : String := ⟨s2.data.map (fun c => if c = '_' then ' ' else c)⟩
  let s4 : String := ⟨remove1girl s3.data⟩
  let s5 : String := ⟨removeLora s4.data⟩
  let s6 : String := ⟨commaSpace s5.data⟩
  let s7 := pyStrip ⟨collapseWs s6.data⟩
  pyRStripSet [',', ' '] s7

/-- The eight-step Tag Cleaner pipeline in the amended claim C4 wording: as the
claim states it, except that the final step trims commas/spaces from both ends. -/
def cleanTagSpec (s : String) : String :=
  let s1 : String := ⟨removeWeights s.data⟩
  let s2 : String := ⟨s1.data.filter (fun c => !(['(', ')', '\x7b', '\x7d'].contains c))⟩
  let s3 : String := ⟨s2.data.map (fun c => if c = '_' then ' ' else c)⟩
  let s4 : String := ⟨remove1girl s3.data⟩
  let s5 : String := ⟨removeLora s4.data⟩
  let s6 : String := ⟨commaSpace s5.data⟩
  let s7 := pyStrip ⟨collapseWs s6.data⟩
  pyStripSet [',', ' '] s7

/-- Modelled from the claim C8 wording: the preset's negative block with the
trimmed custom negative appended via `", "` when the custom text is non-empty
after trimming; the trimmed custom text alone when the block is empty; and the
empty string when both are absent. -/
def negCombineSpec (block custom : String) : String :=
  if pyStrip custom ≠ "" then
    if block ≠ "" then block ++ ", " ++ pyStrip custom else pyStrip custom
  else block

/-- The negative block the loader/batch/combiner nodes select for a preset. -/
def presetNegBlock (preset : String) : String :=
  (dictGet NEGATIVE_PRESETS preset).getD DEFAULT_NEGATIVE

/-- The cleaned positive preset block the batch/combiner nodes compute
(`preset_suffix.lstrip(", ").strip() if preset_suffix else ""`). -/
def presetCleanBlock (preset : String) : String :=
  if (dictGet PRESETS preset).getD DEFAULT_SUFFIX ≠ "" then
    pyStrip (pyLStripSet [',', ' '] ((dictGet PRESETS preset).getD DEFAULT_SUFFIX))
  else ""

/-- Modelled from the amended claim C8 wording for the RedNote tag dialect: the
block is base + safety for the "RedNote" preset, the preset's negative when it
is non-empty, and otherwise the RedNote base negative (never the custom text
alone or the empty string); the trimmed custom text is appended via `", "`. -/
def rednoteNegSpec (preset custom : String) : String :=
  let block :=
    if preset = "RedNote" then REDNOTE_NEG_BASE ++ ", " ++ REDNOTE_NEG_SAFETY
    else
      let lookup := (dictGet NEGATIVE_PRESETS preset).getD ""
      if lookup ≠ "" then lookup else REDNOTE_NEG_BASE
  negCombineSpec block custom

/-- Draws consumed by one loader/batch/combiner item (one per enabled
action/background/camera flag). -/
def itemDraws (random_action random_background random_camera : Bool) : Nat :=
  (if random_action then 1 else 0) + (if random_background then 1 else 0) +
    (if random_camera then 1 else 0)

/-- Draws consumed by one `generate_rednote` batch item. -/
def rednoteItemDraws (ctx : RednoteCtx) : Nat :=
  (if ctx.mode = "random" then 1 else 0) +
    (if ctx.styles ≠ [] ∧ ¬ctx.enable_style_lock then 1 else 0) +
    itemDraws ctx.random_action ctx.random_background ctx.random_camera

/-- Modelled from the amended claim C9 wording: the natural-language prompt is
the fixed lead-in naming the cleaned character, then one connector-introduced
sentence per enabled dimension in order action, background, mood (the mood
phrase is never empty, so its sentence always appears), then the style sentence
introduced by the style prefix when the cleaned style is non-empty, then — with
no connector — the cleaned camera fragment as a bare sentence when camera
randomization is enabled, and finally the cleaned custom positive text as a
bare sentence; every inserted fragment is passed through the Tag Cleaner. -/
def fluxPromptSpec (ctx : RednoteCtx) (entry : PromptEntry) (style_tag : String)
    (pos : Nat) : String :=
  let posB := pos + (if ctx.random_action then 1 else 0)
  let posC := posB + (if ctx.random_background then 1 else 0)
  FLUX_PREFIX ++ " " ++ clean_tag entry.character_name ++ ", a girl with " ++
      clean_tag entry.tags ++ "." ++
    (if ctx.random_action then
      " " ++ fluxConnector "action" ++ " " ++ clean_tag (pyChoice ctx.rb pos ACTIONS) ++ "."
     else "") ++
    (if ctx.random_background then
      " " ++ fluxConnector "background" ++ " " ++
        clean_tag (pyChoice ctx.rb posB BACKGROUNDS) ++ "."
     else "") ++
    (" " ++ fluxConnector "mood" ++ " " ++ clean_tag (get_mood_prompt ctx.mood_level) ++ ".") ++
    (if clean_tag style_tag ≠ "" then
      " " ++ FLUX_STYLE_PREFIX ++ " " ++ clean_tag style_tag ++ "."
     else "") ++
    (if ctx.random_camera ∧ clean_tag (pyChoice ctx.rb posC CAMERA_EFFECTS) ≠ "" then
      " " ++ clean_tag (pyChoice ctx.rb posC CAMERA_EFFECTS) ++ "."
     else "") ++
    (if ctx.custom_positive ≠ "" then " " ++ clean_tag ctx.custom_positive ++ "." else "")

/-- Every whitespace character of the list is a plain space (an invariant of
the Tag Cleaner's whitespace-collapsing step). -/
def allWsSpace (l : List Char) : Bool := l.all (fun c => !pyIsSpace c || c = ' ')

/-- No two adjacent whitespace characters (the other invariant of the
whitespace-collapsing step). -/
def noDoubleWs : List Char → Bool
  | a :: b :: t => (!(pyIsSpace a && pyIsSpace b)) && noDoubleWs (b :: t)
  | _ => true

/-! ### General lemmas -/

/-- `", ".join` of one non-empty part. -/
theorem joinParts_one {a : String} (ha : a ≠ "") : joinParts [a] = a := by
  have : (a != "") = true := by simpa using ha
  simp [joinParts, List.filter, this, String.intercalate, String.intercalate.go]

/-- `", ".join` of two non-empty parts. -/
theorem joinParts_two {a b : String} (ha : a ≠ "") (hb : b ≠ "") :
    joinParts [a, b] = a ++ ", " ++ b := by
  have ha' : (a != "") = true := by simpa using ha
  have hb' : (b != "") = true := by simpa using hb
  simp [joinParts, List.filter, ha', hb', String.intercalate, String.intercalate.go]

/-- `", ".join` of three non-empty parts. -/
theorem joinParts_three {a b c : String} (ha : a ≠ "") (hb : b ≠ "") (hc : c ≠ "") :
    joinParts [a, b, c] = a ++ ", " ++ b ++ ", " ++ c := by
  have ha' : (a != "") = true := by simpa using ha
  have hb' : (b != "") = true := by simpa using hb
  have hc' : (c != "") = true := by simpa using hc
  simp [joinParts, List.filter, ha', hb', hc', String.intercalate, String.intercalate.go]

/-! ### Claim C6 — mood-phrase bucketing -/

/-- C6: `get_mood_prompt` is a pure step function with exactly five bands cut
at 0.2 / 0.4 / 0.6 / 0.8; every band is half-open `[low, high)`, each boundary
value belongs to the band starting there, and 1.0 lies in the top band. -/
theorem c6_mood_bands (q : ℚ) :
    (q < mkRat 2 10 →
      get_mood_prompt q = "(slight smile:1.2), (gentle expression:1.1), (obedient:1.1), demure") ∧
    (mkRat 2 10 ≤ q ∧ q < mkRat 4 10 →
      get_mood_prompt q = "(expressionless:1.3), (neutral face:1.2), (serious:1.2), (looking down:1.1)") ∧
    (mkRat 4 10 ≤ q ∧ q < mkRat 6 10 →
      get_mood_prompt q = "(stoned face:1.3), (hollow gaze:1.1), (dissociation:1.1)") ∧
    (mkRat 6 10 ≤ q ∧ q < mkRat 8 10 →
      get_mood_prompt q = "(annoyed expression:1.3), (glaring:1.2), (displeased:1.2)") ∧
    (mkRat 8 10 ≤ q →
      get_mood_prompt q = "(stubborn:1.5), (pouting:1.4), (grumpy:1.4), (angry:1.2), (looking away:1.1)") := by
  refine ⟨fun h => ?_, fun h => ?_, fun h => ?_, fun h => ?_, fun h => ?_⟩ <;>
    simp only [get_mood_prompt] <;>
    split_ifs <;>
    first
      | rfl
      | (exfalso
         simp only [Rat.mkRat_eq_div] at *
         norm_num at *
         try linarith [h.1, h.2]
         try linarith)

/-- Witness for C6 at the boundary inputs 0.2 and 1.0. -/
theorem c6_mood_bands_witness :
    get_mood_prompt (mkRat 2 10) =
      "(expressionless:1.3), (neutral face:1.2), (serious:1.2), (looking down:1.1)" ∧
    get_mood_prompt 1 =
      "(stubborn:1.5), (pouting:1.4), (grumpy:1.4), (angry:1.2), (looking away:1.1)" :=
  ⟨(c6_mood_bands (mkRat 2 10)).2.1 ⟨by decide, by decide⟩,
   (c6_mood_bands 1).2.2.2.2 (by decide)⟩

/-! ### Claim C10 — `pick_random` safety -/

/-- C10: for a stream sound at this position, `pick_random` returns an element
of every non-empty sequence; on the empty sequence it returns `none` (the
`IndexError`), and the fragment lists `ACTIONS`, `BACKGROUNDS` and
`CAMERA_EFFECTS` being non-empty makes that branch unreachable for
`pick_action` / `pick_background` / `pick_camera`. -/
theorem c10_pick_random_safe (rb : Rb) (pos : Nat)
    (hrb : ∀ n, 0 < n → rb pos n < n) :
    (∀ items : List String, items ≠ [] →
      ∃ a, pick_random rb pos items = some a ∧ a ∈ items) ∧
    pick_random rb pos ([] : List String) = none ∧
    ACTIONS ≠ [] ∧ BACKGROUNDS ≠ [] ∧ CAMERA_EFFECTS ≠ [] ∧
    (∃ a, pick_action rb pos = some a ∧ a ∈ ACTIONS) ∧
    (∃ a, pick_background rb pos = some a ∧ a ∈ BACKGROUNDS) ∧
    (∃ a, pick_camera rb pos = some a ∧ a ∈ CAMERA_EFFECTS) := by
  have key : ∀ items : List String, items ≠ [] →
      ∃ a, pick_random rb pos items = some a ∧ a ∈ items := by
    intro items hne
    have hlen : 0 < items.length := List.length_pos.mpr hne
    have hidx : rb pos items.length < items.length := hrb _ hlen
    refine ⟨items.get ⟨rb pos items.length, hidx⟩, ?_, List.get_mem _ _ _⟩
    simp [pick_random, List.get?_eq_get hidx]
  refine ⟨key, by simp [pick_random], by decide, by decide, by decide, ?_, ?_, ?_⟩
  · exact key ACTIONS (by decide)
  · exact key BACKGROUNDS (by decide)
  · exact key CAMERA_EFFECTS (by decide)

/-- Witness for C10 with the all-zeros stream. -/
theorem c10_pick_random_safe_witness :
    pick_random (fun _ _ => 0) 0 ([] : List String) = none ∧
    (pick_action (fun _ _ => 0) 0).isSome = true := by
  have h := c10_pick_random_safe (fun _ _ => 0) 0 (fun n hn => hn)
  refine ⟨h.2.1, ?_⟩
  obtain ⟨a, ha, _⟩ := h.2.2.2.2.2.1
  simp [ha]

/-! ### Claim C3 — the prompt-file parser -/

/-- `splitAtFirst` described through the index of the first separator. -/
theorem splitAtFirst_findIdx (sep : Char) (l : List Char) :
    splitAtFirst sep l =
      if l.findIdx (fun c => c = sep) < l.length then
        some (l.take (l.findIdx (fun c => c = sep)),
          l.drop (l.findIdx (fun c => c = sep) + 1))
      else none := by
  induction l with
  | nil => simp [splitAtFirst]
  | cons c t ih =>
    by_cases hc : c = sep
    · subst hc
      simp [splitAtFirst, List.findIdx_cons]
    · have hc' : (decide (c = sep)) = false := by simpa using hc
      simp only [splitAtFirst, hc, if_false, ih, List.findIdx_cons, hc', cond_false,
        List.length_cons]
      by_cases hlt : t.findIdx (fun x => x = sep) < t.length
      · simp [hlt, Nat.succ_lt_succ hlt, List.take_succ_cons, List.drop_succ_cons]
      · have : ¬ (t.findIdx (fun x => x = sep) + 1 < t.length + 1) := by omega
        simp [hlt, this]

set_option maxRecDepth 4000 in
/-- The per-line behaviour of the parser agrees with the amended claim wording. -/
theorem parseLine_eq_spec (line : String) : parseLine line = parseLineSpec line := by
  simp only [parseLine, parseLineSpec, splitAtFirst_findIdx]
  by_cases h0 : pyStrip line = ""
  · have : (pyStrip line).data.isEmpty = true := by simp [h0]
    simp [h0, this]
  · have hne : (pyStrip line).data.isEmpty = false := by
      rcases hd : (pyStrip line).data with _ | _
      · exact absurd (String.ext hd) h0
      · rfl
    by_cases hlt :
        (pyStrip line).data.findIdx (fun c => c = '\t') < (pyStrip line).length
    · simp [h0, hne, hlt]
    · simp [h0, hne, hlt]

/-- C3 (amended): the parser produces one entry per non-blank line in file
order, where each line is first trimmed of surrounding whitespace (tabs
included) and then split at its first remaining tab with both fields trimmed,
`character_name` defaulting to `""` when no tab remains — so a line whose only
tab lies in the surrounding whitespace parses as a tags-only entry; the claim's
example still holds. -/
theorem c3_parse_prompt_file_amended (content : String) :
    parse_prompt_file content = (pyLines content).filterMap parseLineSpec ∧
    parse_prompt_file "red hair, ribbon\tAsuka\n\nblue eyes\n" =
      [⟨"red hair, ribbon", "Asuka"⟩, ⟨"blue eyes", ""⟩] := by
  constructor
  · unfold parse_prompt_file
    rw [show parseLine = parseLineSpec from funext parseLine_eq_spec]
  · decide

/-- C3 counterexample: on the line `"\tAsuka"`, whose only tab is leading, the
code strips the tab with the surrounding whitespace before looking for a
separator and returns the tags-only entry `("Asuka", "")`, not the
`("", "Asuka")` required by splitting the raw line at its first tab. -/
theorem c3_counterexample :
    parse_prompt_file "\tAsuka\n" = [⟨"Asuka", ""⟩] ∧
    parse_prompt_file "\tAsuka\n" ≠ [⟨"", "Asuka"⟩] := by
  exact ⟨by decide, by decide⟩

/-! ### Claim C4 — the Tag Cleaner pipeline -/

/-- The four successive single-character `replace` calls of step 2 equal one
filter over the four delimiter characters. -/
theorem filter_four (l : List Char) :
    (((l.filter (fun c => c != '(')).filter (fun c => c != ')')).filter
        (fun c => c != '\x7b')).filter (fun c => c != '\x7d') =
      l.filter (fun c => !(['(', ')', '\x7b', '\x7d'].contains c)) := by
  induction l with
  | nil => rfl
  | cons c t ih =>
    by_cases h1 : c = '('
    · subst h1; simpa using ih
    · by_cases h2 : c = ')'
      · subst h2; simpa using ih
      · by_cases h3 : c = '\x7b'
        · subst h3; simpa using ih
        · by_cases h4 : c = '\x7d'
          · subst h4; simpa using ih
          · have b1 : (c != '(') = true := by simpa using h1
            have b2 : (c != ')') = true := by simpa using h2
            have b3 : (c != '\x7b') = true := by simpa using h3
            have b4 : (c != '\x7d') = true := by simpa using h4
            simp [List.filter_cons, b1, b2, b3, b4, h1, h2, h3, h4, ih]
            refine List.filter_congr ?_
            intro a _
            by_cases k1 : a = '(' <;> by_cases k2 : a = ')' <;> by_cases k3 : a = '\x7b' <;>
              by_cases k4 : a = '\x7d' <;> simp [k1, k2, k3, k4]

/-- C4 (amended): `clean_tag` applies exactly the claimed eight-step sequence —
weight removal, delimiter stripping, underscore replacement, standalone
`1girl` removal, `lora trigger(s)` removal, comma-spacing normalization,
whitespace collapsing with trim — except that the final step trims commas and
spaces from BOTH ends (Python `strip(", ")`), not only trailing ones; it is a
pure function of its input. -/
theorem c4_clean_tag_amended (s : String) : clean_tag s = cleanTagSpec s := by
  by_cases hs : s = ""
  · subst hs; decide
  · simp only [clean_tag, hs, if_false, cleanTagSpec, ctStep1, ctStep2, ctStep3, ctStep4,
      ctStep5, ctStep6, ctStep7, ctStep8]
    rw [filter_four]

/-- C4 counterexample: on the input `",a"` the code returns `"a"` (the final
`strip(", ")` removes the leading comma introduced by comma-spacing), while the
claimed trailing-only trim yields `", a"`. -/
theorem c4_counterexample :
    clean_tag ",a" = "a" ∧ cleanTagSpecClaim ",a" = ", a" ∧
    clean_tag ",a" ≠ cleanTagSpecClaim ",a" :=
  ⟨by decide, by decide, by decide⟩

/-! ### Claim C5 — fixed points of the Tag Cleaner's normalization steps -/

/-- Dropping a matching run never lengthens a list. -/
theorem dropWhile_length_le (p : Char → Bool) (l : List Char) :
    (l.dropWhile p).length ≤ l.length := by
  induction l with
  | nil => simp [List.dropWhile]
  | cons c t ih =>
    simp only [List.dropWhile]
    cases p c
    · simp
    · simp
      omega

/-- The head surviving `dropWhile` fails the predicate. -/
theorem dropWhile_head_not (p : Char → Bool) (l : List Char) (c : Char)
    (h : (l.dropWhile p).head? = some c) : p c = false := by
  induction l with
  | nil => simp [List.dropWhile] at h
  | cons a t ih =>
    simp only [List.dropWhile] at h
    rcases hpa : p a with _ | _
    · rw [hpa] at h
      simp only [List.head?_cons, Option.some.injEq] at h
      subst h
      exact hpa
    · rw [hpa] at h
      exact ih h
  
/-- `dropWhile` is the identity when the head already fails the predicate. -/
theorem dropWhile_fix (p : Char → Bool) (l : List Char)
    (h : ∀ c, l.head? = some c → p c = false) : l.dropWhile p = l := by
  cases l with
  | nil => rfl
  | cons a t => simp [List.dropWhile, h a rfl]

/-- `noDoubleWs` passes to the tail. -/
theorem noDoubleWs_tail {a : Char} {l : List Char} (h : noDoubleWs (a :: l) = true) :
    noDoubleWs l = true := by
  cases l with
  | nil => rfl
  | cons b t =>
    simp only [noDoubleWs, Bool.and_eq_true] at h
    exact h.2

/-- Unfolding `noDoubleWs` at a cons cell. -/
theorem noDoubleWs_cons {a : Char} {l : List Char} :
    noDoubleWs (a :: l) = true ↔
      (∀ b, l.head? = some b → (pyIsSpace a && pyIsSpace b) = false) ∧
        noDoubleWs l = true := by
  cases l with
  | nil => simp [noDoubleWs]
  | cons b t =>
    simp only [noDoubleWs, Bool.and_eq_true, List.head?_cons]
    constructor
    · rintro ⟨h1, h2⟩
      refine ⟨fun d hd => ?_, h2⟩
      injection hd with hd
      subst hd
      cases hx : pyIsSpace a <;> cases hy : pyIsSpace b <;> simp_all
    · rintro ⟨h1, h2⟩
      have h3 := h1 b rfl
      refine ⟨?_, h2⟩
      cases hx : pyIsSpace a <;> cases hy : pyIsSpace b <;> simp_all

/-- `noDoubleWs` survives `dropWhile`. -/
theorem noDoubleWs_dropWhile (p : Char → Bool) (l : List Char)
    (h : noDoubleWs l = true) : noDoubleWs (l.dropWhile p) = true := by
  induction l with
  | nil => simpa using h
  | cons a t ih =>
    simp only [List.dropWhile]
    cases p a
    · simpa using h
    · exact ih (noDoubleWs_tail h)

/-- `allWsSpace` survives `dropWhile`. -/
theorem allWsSpace_dropWhile (p : Char → Bool) (l : List Char)
    (h : allWsSpace l = true) : allWsSpace (l.dropWhile p) = true := by
  induction l with
  | nil => simpa using h
  | cons a t ih =>
    simp only [allWsSpace, List.all_cons, Bool.and_eq_true] at h
    simp only [List.dropWhile]
    cases p a
    · simp [allWsSpace, List.all_cons, h.1, h.2]
    · exact ih h.2

/-- A non-empty `stripRightP` result starts with the head of its input. -/
theorem stripRightP_head (p : Char → Bool) (l : List Char) (d : Char) (r : List Char)
    (h : stripRightP p l = d :: r) : ∃ t, l = d :: t := by
  cases l with
  | nil => simp [stripRightP] at h
  | cons a t =>
    simp only [stripRightP] at h
    rcases hm : stripRightP p t with _ | ⟨e, s⟩ <;> rw [hm] at h
    · rcases hpa : p a with _ | _ <;> rw [hpa] at h
      · simp at h
        exact ⟨t, by rw [h.1]⟩
      · simp at h
    · simp at h
      exact ⟨t, by rw [h.1]⟩

/-- `allWsSpace` survives `stripRightP`. -/
theorem allWsSpace_stripRightP (p : Char → Bool) (l : List Char)
    (h : allWsSpace l = true) : allWsSpace (stripRightP p l) = true := by
  induction l with
  | nil => simpa using h
  | cons a t ih =>
    simp only [allWsSpace, List.all_cons, Bool.and_eq_true] at h
    have ihs := ih h.2
    simp only [stripRightP]
    rcases hm : stripRightP p t with _ | ⟨e, s⟩
    · cases p a
      · simp [allWsSpace, h.1]
      · simp [allWsSpace]
    · rw [hm] at ihs
      simp only [allWsSpace, List.all_cons, Bool.and_eq_true] at ihs ⊢
      exact ⟨h.1, ihs⟩

/-- `noDoubleWs` survives `stripRightP`. -/
theorem noDoubleWs_stripRightP (p : Char → Bool) (l : List Char)
    (h : noDoubleWs l = true) : noDoubleWs (stripRightP p l) = true := by
  induction l with
  | nil => simpa using h
  | cons a t ih =>
    have ihs := ih (noDoubleWs_tail h)
    simp only [stripRightP]
    rcases hm : stripRightP p t with _ | ⟨e, s⟩
    · cases p a
      · simp [noDoubleWs]
      · simp [noDoubleWs]
    · rw [hm] at ihs
      obtain ⟨t', ht'⟩ := stripRightP_head p t e s hm
      rw [noDoubleWs_cons]
      refine ⟨fun b hb => ?_, ihs⟩
      injection hb with hb
      subst hb
      have := (noDoubleWs_cons.mp h).1 e (by rw [ht']; rfl)
      exact this

/-- The last character surviving `stripRightP` fails the predicate. -/
theorem stripRightP_last (p : Char → Bool) (l : List Char) (c : Char)
    (h : (stripRightP p l).getLast? = some c) : p c = false := by
  induction l with
  | nil => simp [stripRightP] at h
  | cons a t ih =>
    simp only [stripRightP] at h
    rcases hm : stripRightP p t with _ | ⟨e, s⟩ <;> rw [hm] at h
    · rcases hpa : p a with _ | _ <;> rw [hpa] at h
      · simp at h
        subst h
        exact hpa
      · simp at h
    · rw [List.getLast?_cons_cons] at h
      rw [← hm] at h
      exact ih h

/-- `stripRightP` is the identity when the last character already fails the
predicate. -/
theorem stripRightP_fix (p : Char → Bool) (l : List Char)
    (h : ∀ c, l.getLast? = some c → p c = false) : stripRightP p l = l := by
  induction l with
  | nil => rfl
  | cons a t ih =>
    simp only [stripRightP]
    cases t with
    | nil =>
      have := h a rfl
      simp [stripRightP, this]
    | cons b u =>
      have ht : stripRightP p (b :: u) = b :: u := by
        apply ih
        intro c hc
        exact h c (by rwa [List.getLast?_cons_cons])
      rw [ht]

/-- The head surviving `stripBothP` fails the predicate. -/
theorem stripBothP_head (p : Char → Bool) (l : List Char) (c : Char)
    (h : (stripBothP p l).head? = some c) : p c = false := by
  unfold stripBothP at h
  rcases hm : stripRightP p (l.dropWhile p) with _ | ⟨e, s⟩ <;> rw [hm] at h
  · simp at h
  · obtain ⟨t', ht'⟩ := stripRightP_head p _ e s hm
    simp only [List.head?_cons, Option.some.injEq] at h
    subst h
    exact dropWhile_head_not p l e (by rw [ht']; rfl)

/-- The last character surviving `stripBothP` fails the predicate. -/
theorem stripBothP_last (p : Char → Bool) (l : List Char) (c : Char)
    (h : (stripBothP p l).getLast? = some c) : p c = false :=
  stripRightP_last p _ c h

/-- `stripBothP` is the identity when both ends already fail the predicate. -/
theorem stripBothP_fix (p : Char → Bool) (l : List Char)
    (hh : ∀ c, l.head? = some c → p c = false)
    (hl : ∀ c, l.getLast? = some c → p c = false) : stripBothP p l = l := by
  unfold stripBothP
  rw [dropWhile_fix p l hh]
  exact stripRightP_fix p l hl

/-- `allWsSpace` survives `stripBothP`. -/
theorem allWsSpace_stripBothP (p : Char → Bool) (l : List Char)
    (h : allWsSpace l = true) : allWsSpace (stripBothP p l) = true :=
  allWsSpace_stripRightP p _ (allWsSpace_dropWhile p l h)

/-- `noDoubleWs` survives `stripBothP`. -/
theorem noDoubleWs_stripBothP (p : Char → Bool) (l : List Char)
    (h : noDoubleWs l = true) : noDoubleWs (stripBothP p l) = true :=
  noDoubleWs_stripRightP p _ (noDoubleWs_dropWhile p l h)

/-- Unfolding `allWsSpace` at a cons cell. -/
theorem allWsSpace_cons (c : Char) (l : List Char) :
    allWsSpace (c :: l) = ((!pyIsSpace c || c = ' ') && allWsSpace l) := rfl

/-- All whitespace in the output of the whitespace-collapsing scanner is a
plain space (for sufficient fuel). -/
theorem allWsSpace_collapseWsF : ∀ (fuel : Nat) (l : List Char),
    l.length ≤ fuel → allWsSpace (collapseWsF fuel l) = true := by
  intro fuel
  induction fuel with
  | zero =>
    intro l hl
    have : l = [] := List.length_eq_zero.mp (Nat.le_zero.mp hl)
    subst this
    rfl
  | succ f ih =>
    intro l hl
    cases l with
    | nil => rfl
    | cons c t =>
      have ht : t.length ≤ f := by
        simp only [List.length_cons] at hl
        omega
      have hdw : (t.dropWhile pyIsSpace).length ≤ f :=
        le_trans (dropWhile_length_le pyIsSpace t) ht
      simp only [collapseWsF]
      rcases hc : pyIsSpace c with _ | _
      · simp [allWsSpace_cons, hc, ih t ht]
      · simp [allWsSpace_cons, ih (t.dropWhile pyIsSpace) hdw]

/-- The head of the collapsed list is the (space-normalized) head of the input. -/
theorem collapseWsF_head (fuel : Nat) (l : List Char) (hl : l.length ≤ fuel) :
    (collapseWsF fuel l).head? = l.head?.map (fun c => if pyIsSpace c then ' ' else c) := by
  cases fuel with
  | zero =>
    have : l = [] := List.length_eq_zero.mp (Nat.le_zero.mp hl)
    subst this
    rfl
  | succ f =>
    cases l with
    | nil => rfl
    | cons c t =>
      simp only [collapseWsF]
      rcases hc : pyIsSpace c with _ | _ <;> simp [hc]

/-- The collapsed list has no two adjacent whitespace characters. -/
theorem noDoubleWs_collapseWsF : ∀ (fuel : Nat) (l : List Char),
    l.length ≤ fuel → noDoubleWs (collapseWsF fuel l) = true := by
  intro fuel
  induction fuel with
  | zero =>
    intro l hl
    have : l = [] := List.length_eq_zero.mp (Nat.le_zero.mp hl)
    subst this
    rfl
  | succ f ih =>
    intro l hl
    cases l with
    | nil => rfl
    | cons c t =>
      have ht : t.length ≤ f := by
        simp only [List.length_cons] at hl
        omega
      have hdw : (t.dropWhile pyIsSpace).length ≤ f :=
        le_trans (dropWhile_length_le pyIsSpace t) ht
      simp only [collapseWsF]
      rcases hc : pyIsSpace c with _ | _
      · simp only [Bool.false_eq_true, if_false]
        rw [noDoubleWs_cons]
        refine ⟨fun b _ => ?_, ih t ht⟩
        simp [hc]
      · simp only [if_true]
        rw [noDoubleWs_cons]
        refine ⟨fun b hb => ?_, ih _ hdw⟩
        rw [collapseWsF_head f _ hdw] at hb
        rcases hd : (t.dropWhile pyIsSpace).head? with _ | ⟨d⟩ <;> rw [hd] at hb
        · exact Option.noConfusion hb
        · have hnd : pyIsSpace d = false := dropWhile_head_not pyIsSpace t d hd
          have hb' : (if pyIsSpace d then ' ' else d) = b := Option.some.inj hb
          rw [hnd] at hb'
          simp only [Bool.false_eq_true, if_false] at hb'
          subst hb'
          simp [hnd]

/-- The collapsing scanner is the identity on already-normalized input. -/
theorem collapseWsF_fix : ∀ (fuel : Nat) (l : List Char),
    allWsSpace l = true → noDoubleWs l = true → l.length ≤ fuel →
      collapseWsF fuel l = l := by
  intro fuel
  induction fuel with
  | zero =>
    intro l _ _ hl
    have : l = [] := List.length_eq_zero.mp (Nat.le_zero.mp hl)
    subst this
    rfl
  | succ f ih =>
    intro l hall hnd hl
    cases l with
    | nil => rfl
    | cons c t =>
      have ht : t.length ≤ f := by
        simp only [List.length_cons] at hl
        omega
      have hallt : allWsSpace t = true := by
        rw [allWsSpace_cons, Bool.and_eq_true] at hall
        exact hall.2
      have hndt : noDoubleWs t = true := noDoubleWs_tail hnd
      simp only [collapseWsF]
      rcases hc : pyIsSpace c with _ | _
      · simp only [Bool.false_eq_true, if_false]
        rw [ih t hallt hndt ht]
      · simp only [if_true]
        have hcs : c = ' ' := by
          rw [allWsSpace_cons, Bool.and_eq_true] at hall
          have := hall.1
          rw [hc] at this
          simpa using this
        have hdw : t.dropWhile pyIsSpace = t := by
          apply dropWhile_fix
          intro d hd
          have := (noDoubleWs_cons.mp hnd).1 d hd
          rw [hc] at this
          simpa using this
        rw [hdw, ih t hallt hndt ht, hcs]

/-- Membership from `head?`. -/
theorem head?_mem_list {l : List Char} {c : Char} (h : l.head? = some c) : c ∈ l := by
  cases l with
  | nil => exact Option.noConfusion h
  | cons a t =>
    have : a = c := Option.some.inj h
    subst this
    exact List.mem_cons_self a t

/-- Membership from `getLast?`. -/
theorem getLast?_mem_list {l : List Char} {c : Char} (h : l.getLast? = some c) : c ∈ l := by
  have hm : c ∈ l.getLast? := by rw [h]; rfl
  obtain ⟨hne, rfl⟩ := List.mem_getLast?_eq_getLast hm
  exact List.getLast_mem hne

/-- The `allWsSpace` invariant read off at a member. -/
theorem allWsSpace_of_mem {l : List Char} {c : Char} (hall : allWsSpace l = true)
    (hc : c ∈ l) : (!pyIsSpace c || c = ' ') = true := by
  simp only [allWsSpace, List.all_eq_true] at hall
  exact hall c hc

/-- Steps 7 and 8 of the Tag Cleaner are the identity on any value produced by
step 8 after step 7 — in particular on every `clean_tag` output. -/
theorem step78_fix (x : String) :
    ctStep7 (ctStep8 (ctStep7 x)) = ctStep8 (ctStep7 x) ∧
    ctStep8 (ctStep8 (ctStep7 x)) = ctStep8 (ctStep7 x) := by
  set q : Char → Bool := fun c => [',', ' '].contains c with hq
  have hz : (ctStep7 x).data =
      stripBothP pyIsSpace (collapseWsF x.data.length x.data) := rfl
  have hy : (ctStep8 (ctStep7 x)).data = stripBothP q (ctStep7 x).data := rfl
  have hz_all : allWsSpace (ctStep7 x).data = true := by
    rw [hz]
    exact allWsSpace_stripBothP _ _ (allWsSpace_collapseWsF _ _ le_rfl)
  have hz_nd : noDoubleWs (ctStep7 x).data = true := by
    rw [hz]
    exact noDoubleWs_stripBothP _ _ (noDoubleWs_collapseWsF _ _ le_rfl)
  have hy_all : allWsSpace (ctStep8 (ctStep7 x)).data = true := by
    rw [hy]
    exact allWsSpace_stripBothP _ _ hz_all
  have hy_nd : noDoubleWs (ctStep8 (ctStep7 x)).data = true := by
    rw [hy]
    exact noDoubleWs_stripBothP _ _ hz_nd
  have hy_head_q : ∀ c, (ctStep8 (ctStep7 x)).data.head? = some c → q c = false := by
    intro c hc
    rw [hy] at hc
    exact stripBothP_head q _ c hc
  have hy_last_q : ∀ c, (ctStep8 (ctStep7 x)).data.getLast? = some c → q c = false := by
    intro c hc
    rw [hy] at hc
    exact stripBothP_last q _ c hc
  have not_ws_of_not_q : ∀ c, c ∈ (ctStep8 (ctStep7 x)).data → q c = false →
      pyIsSpace c = false := by
    intro c hmem hqc
    have hall := allWsSpace_of_mem hy_all hmem
    rcases hw : pyIsSpace c with _ | _
    · rfl
    · rw [hw] at hall
      have hcs : c = ' ' := by simpa using hall
      rw [hcs, hq] at hqc
      simp at hqc
  have hy_head : ∀ c, (ctStep8 (ctStep7 x)).data.head? = some c → pyIsSpace c = false :=
    fun c hc => not_ws_of_not_q c (head?_mem_list hc) (hy_head_q c hc)
  have hy_last : ∀ c, (ctStep8 (ctStep7 x)).data.getLast? = some c → pyIsSpace c = false :=
    fun c hc => not_ws_of_not_q c (getLast?_mem_list hc) (hy_last_q c hc)
  constructor
  · show pyStrip ⟨collapseWs (ctStep8 (ctStep7 x)).data⟩ = ctStep8 (ctStep7 x)
    have hcol : collapseWs (ctStep8 (ctStep7 x)).data = (ctStep8 (ctStep7 x)).data :=
      collapseWsF_fix _ _ hy_all hy_nd le_rfl
    rw [hcol]
    show ⟨stripBothP pyIsSpace (ctStep8 (ctStep7 x)).data⟩ = ctStep8 (ctStep7 x)
    rw [stripBothP_fix pyIsSpace _ hy_head hy_last]
  · show ⟨stripBothP q (ctStep8 (ctStep7 x)).data⟩ = ctStep8 (ctStep7 x)
    rw [stripBothP_fix q _ hy_head_q hy_last_q]

/-- C5 (amended): the Tag Cleaner is idempotent on every input whose cleaned
form carries no residual match of the removal/normalization patterns of steps
1–6 (no weight annotation, no delimiter, no underscore, no standalone `1girl`,
no `lora trigger`, no comma-spacing defect) — steps 7 and 8 always fix the
cleaned form. It is NOT idempotent in general: a first pass can uncover a new
match, as on `"(:)1"`. -/
theorem c5_clean_tag_conditionally_idempotent (s : String)
    (h1 : ctStep1 (clean_tag s) = clean_tag s)
    (h2 : ctStep2 (clean_tag s) = clean_tag s)
    (h3 : ctStep3 (clean_tag s) = clean_tag s)
    (h4 : ctStep4 (clean_tag s) = clean_tag s)
    (h5 : ctStep5 (clean_tag s) = clean_tag s)
    (h6 : ctStep6 (clean_tag s) = clean_tag s) :
    clean_tag (clean_tag s) = clean_tag s := by
  by_cases hy : clean_tag s = ""
  · rw [hy]
    rfl
  · have hs : s ≠ "" := by
      intro h
      rw [h] at hy
      exact hy rfl
    have hrep : clean_tag s =
        ctStep8 (ctStep7 (ctStep6 (ctStep5 (ctStep4 (ctStep3 (ctStep2 (ctStep1 s))))))) := by
      simp only [clean_tag, hs, if_false]
    have h78 := step78_fix (ctStep6 (ctStep5 (ctStep4 (ctStep3 (ctStep2 (ctStep1 s))))))
    rw [← hrep] at h78
    have expand : clean_tag (clean_tag s) =
        if clean_tag s = "" then ""
        else ctStep8 (ctStep7 (ctStep6 (ctStep5 (ctStep4 (ctStep3 (ctStep2
          (ctStep1 (clean_tag s)))))))) := rfl
    rw [expand, if_neg hy, h1, h2, h3, h4, h5, h6, h78.1, h78.2]

/-- C5 counterexample: `clean_tag` is not idempotent — on `"(:)1"` the first
pass strips the parentheses and uncovers the weight pattern `":1"`, which only
the second pass removes. -/
theorem c5_counterexample :
    clean_tag "(:)1" = ":1" ∧ clean_tag (clean_tag "(:)1") = "" ∧
    clean_tag (clean_tag "(:)1") ≠ clean_tag "(:)1" :=
  ⟨by decide, by decide, by decide⟩

/-- Witness for C5 on a typical tag string whose cleaned form has no residual
pattern matches. -/
theorem c5_clean_tag_conditionally_idempotent_witness :
    clean_tag (clean_tag "(red_hair:1.2), 1girl,  blue eyes") =
      clean_tag "(red_hair:1.2), 1girl,  blue eyes" :=
  c5_clean_tag_conditionally_idempotent "(red_hair:1.2), 1girl,  blue eyes"
    (by decide) (by decide) (by decide) (by decide) (by decide) (by decide)

/-! ### Claim C1 — assembler failure semantics -/

/-- C1 (amended): every failure that the nodes' `except` clauses cover — a
missing file, an OS-level read error, or a file parsing to zero entries — makes
each assembler return normally with a placeholder error string in the prompt
position and an empty negative; `generate_rednote` (`except Exception`)
converts decode failures as well, but for the other three assemblers a
`UnicodeDecodeError` (not an `OSError`) propagates past the boundary, modelled
here as an `Except.error` result. -/
theorem c1_failure_semantics_amended (fs : FileReader) (rb : Rb) (pf sf : String)
    (idx start_index batch_size csi ssi char_count style_count : Nat)
    (mode preset target_model : String) (mood : ℚ) (lock ra rbg rc : Bool)
    (cp cn : String) :
    (∀ m, fs (get_prompt_file_path pf) = .notFound m →
      load_prompt fs rb pf idx mode preset ra rbg rc cp cn =
        .ok ("Error: " ++ pf ++ " not found", "", "", 0, 0)) ∧
    (∀ m, fs (get_prompt_file_path pf) = .osError m →
      load_prompt fs rb pf idx mode preset ra rbg rc cp cn =
        .ok ("Error: " ++ m, "", "", 0, 0)) ∧
    (∀ content, fs (get_prompt_file_path pf) = .ok content →
      parse_prompt_file content = [] →
      load_prompt fs rb pf idx mode preset ra rbg rc cp cn =
        .ok ("Error: No prompts found in file", "", "", 0, 0)) ∧
    (∀ m, fs (get_prompt_file_path pf) = .decodeError m →
      load_prompt fs rb pf idx mode preset ra rbg rc cp cn = .error m) ∧
    (∀ m, fs (get_prompt_file_path pf) = .notFound m →
      load_batch fs rb pf start_index batch_size preset ra rbg rc cp cn =
        .ok (["Error: " ++ pf ++ " not found"], "")) ∧
    (∀ m, fs (get_prompt_file_path pf) = .osError m →
      load_batch fs rb pf start_index batch_size preset ra rbg rc cp cn =
        .ok (["Error: " ++ m], "")) ∧
    (∀ content, fs (get_prompt_file_path pf) = .ok content →
      parse_prompt_file content = [] →
      load_batch fs rb pf start_index batch_size preset ra rbg rc cp cn =
        .ok (["Error: No prompts found"], "")) ∧
    (∀ m, fs (get_prompt_file_path pf) = .decodeError m →
      load_batch fs rb pf start_index batch_size preset ra rbg rc cp cn = .error m) ∧
    (∀ m, fs (get_prompt_file_path pf) = .notFound m ∨
        fs (get_prompt_file_path pf) = .osError m →
      combine_prompts fs rb pf sf csi ssi char_count style_count preset ra rbg rc cp cn =
        .ok (["Error loading characters: " ++ m], "")) ∧
    (∀ content m, fs (get_prompt_file_path pf) = .ok content →
      (fs (get_prompt_file_path sf) = .notFound m ∨
        fs (get_prompt_file_path sf) = .osError m) →
      combine_prompts fs rb pf sf csi ssi char_count style_count preset ra rbg rc cp cn =
        .ok (["Error loading styles: " ++ m], "")) ∧
    (∀ content1 content2, fs (get_prompt_file_path pf) = .ok content1 →
      fs (get_prompt_file_path sf) = .ok content2 →
      parse_prompt_file content1 = [] →
      combine_prompts fs rb pf sf csi ssi char_count style_count preset ra rbg rc cp cn =
        .ok (["Error: No characters found"], "")) ∧
    (∀ content1 content2, fs (get_prompt_file_path pf) = .ok content1 →
      fs (get_prompt_file_path sf) = .ok content2 →
      parse_prompt_file content1 ≠ [] → parse_prompt_file content2 = [] →
      combine_prompts fs rb pf sf csi ssi char_count style_count preset ra rbg rc cp cn =
        .ok (["Error: No styles found"], "")) ∧
    (∀ m, fs (get_prompt_file_path pf) = .decodeError m →
      combine_prompts fs rb pf sf csi ssi char_count style_count preset ra rbg rc cp cn =
        .error m) ∧
    (∀ content m, fs (get_prompt_file_path pf) = .ok content →
      fs (get_prompt_file_path sf) = .decodeError m →
      combine_prompts fs rb pf sf csi ssi char_count style_count preset ra rbg rc cp cn =
        .error m) ∧
    (((∀ c, fs (get_prompt_file_path pf) ≠ .ok c) ∨
        (∀ c, fs (get_prompt_file_path sf) ≠ .ok c)) →
      generate_rednote fs rb pf sf target_model start_index batch_size preset mode mood
          lock ra rbg rc cp cn =
        .ok (["Error loading files"], "", ["Error"], ["Error"])) ∧
    (∀ content1 content2, fs (get_prompt_file_path pf) = .ok content1 →
      fs (get_prompt_file_path sf) = .ok content2 →
      parse_prompt_file content1 = [] →
      generate_rednote fs rb pf sf target_model start_index batch_size preset mode mood
          lock ra rbg rc cp cn =
        .ok (["Error: No prompts"], "", ["Error"], ["Error"])) := by
  refine ⟨?_, ?_, ?_, ?_, ?_, ?_, ?_, ?_, ?_, ?_, ?_, ?_, ?_, ?_, ?_, ?_⟩
  · intro m h
    simp only [load_prompt, h]
  · intro m h
    simp only [load_prompt, h]
  · intro content h hp
    simp only [load_prompt, h, hp, if_pos]
  · intro m h
    simp only [load_prompt, h]
  · intro m h
    simp only [load_batch, h]
  · intro m h
    simp only [load_batch, h]
  · intro content h hp
    simp only [load_batch, h, hp, if_pos]
  · intro m h
    simp only [load_batch, h]
  · rintro m (h | h) <;> simp only [combine_prompts, h]
  · rintro content m h1 (h | h) <;> simp only [combine_prompts, h1, h]
  · intro c1 c2 h1 h2 hp
    simp only [combine_prompts, h1, h2, hp, if_pos]
  · intro c1 c2 h1 h2 hp1 hp2
    simp only [combine_prompts, h1, h2]
    rw [if_neg hp1]
    simp [hp2]
  · intro m h
    simp only [combine_prompts, h]
  · intro c m h1 h2
    simp only [combine_prompts, h1, h2]
  · intro h
    rcases hf1 : fs (get_prompt_file_path pf) with c1 | m1 | m1 | m1 <;>
      rcases hf2 : fs (get_prompt_file_path sf) with c2 | m2 | m2 | m2 <;>
        simp only [generate_rednote, hf1, hf2]
    rcases h with h | h
    · exact absurd hf1 (h c1)
    · exact absurd hf2 (h c2)
  · intro c1 c2 h1 h2 hp
    simp only [generate_rednote, h1, h2, hp, if_pos]

/-- C1 counterexample: a prompt file that cannot be decoded as UTF-8 raises a
`UnicodeDecodeError` past `load_prompt`'s boundary (its `except` clauses cover
only `FileNotFoundError` and `OSError`), instead of returning the claimed
placeholder-and-empty-negative tuple. -/
theorem c1_counterexample :
    load_prompt (fun _ => .decodeError "utf-8 codec cannot decode byte") (fun _ _ => 0)
      "a.txt" 0 "sequential" "standard" false false false "" "" =
      .error "utf-8 codec cannot decode byte" := rfl

/-- Witness for C1 on a file system with a missing file. -/
theorem c1_failure_semantics_amended_witness :
    load_prompt (fun _ => .notFound "nf") (fun _ _ => 0) "x.txt" 0 "sequential"
      "standard" false false false "" "" = .ok ("Error: x.txt not found", "", "", 0, 0) ∧
    generate_rednote (fun _ => .notFound "nf") (fun _ _ => 0) "x.txt" "y.txt"
      "Illustrious (Tags)" 0 1 "RedNote" "sequential" (mkRat 5 10) false false false
      false "" "" = .ok (["Error loading files"], "", ["Error"], ["Error"]) := by
  have h := c1_failure_semantics_amended (fun _ => .notFound "nf") (fun _ _ => 0)
    "x.txt" "y.txt" 0 0 1 0 0 1 1 "sequential" "standard" "Illustrious (Tags)"
    (mkRat 5 10) false false false false "" ""
  refine ⟨h.1 "nf" rfl, ?_⟩
  have h2 := c1_failure_semantics_amended (fun _ => .notFound "nf") (fun _ _ => 0)
    "x.txt" "y.txt" 0 0 1 0 0 1 1 "sequential" "RedNote" "Illustrious (Tags)"
    (mkRat 5 10) false false false false "" ""
  exact h2.2.2.2.2.2.2.2.2.2.2.2.2.2.2.1 (Or.inl (fun c hc => ReadResult.noConfusion hc))

/-! ### Claim C8 — negative-prompt construction -/

/-- The RedNote node's joined negative parts equal the amended-claim formula. -/
theorem rednote_negative_eq (preset cn : String) :
    joinParts
      (if pyStrip cn ≠ "" then
        (if preset = "RedNote" then [REDNOTE_NEG_BASE, REDNOTE_NEG_SAFETY]
         else
          if (dictGet NEGATIVE_PRESETS preset).getD "" ≠ "" then
            [(dictGet NEGATIVE_PRESETS preset).getD ""]
          else [REDNOTE_NEG_BASE]) ++ [pyStrip cn]
       else
        if preset = "RedNote" then [REDNOTE_NEG_BASE, REDNOTE_NEG_SAFETY]
        else
          if (dictGet NEGATIVE_PRESETS preset).getD "" ≠ "" then
            [(dictGet NEGATIVE_PRESETS preset).getD ""]
          else [REDNOTE_NEG_BASE]) = rednoteNegSpec preset cn := by
  have hb : REDNOTE_NEG_BASE ≠ "" := by decide
  have hs : REDNOTE_NEG_SAFETY ≠ "" := by decide
  have hbs : REDNOTE_NEG_BASE ++ ", " ++ REDNOTE_NEG_SAFETY ≠ "" := by decide
  by_cases hcn : pyStrip cn ≠ ""
  · rw [if_pos hcn]
    by_cases hp : preset = "RedNote"
    · rw [if_pos hp]
      have hl3 : [REDNOTE_NEG_BASE, REDNOTE_NEG_SAFETY] ++ [pyStrip cn] =
          [REDNOTE_NEG_BASE, REDNOTE_NEG_SAFETY, pyStrip cn] := rfl
      rw [hl3, joinParts_three hb hs hcn]
      simp only [rednoteNegSpec, negCombineSpec]
      rw [if_pos hp, if_pos hcn, if_pos hbs]
    · rw [if_neg hp]
      by_cases hl : (dictGet NEGATIVE_PRESETS preset).getD "" ≠ ""
      · rw [if_pos hl]
        have hl2 : [(dictGet NEGATIVE_PRESETS preset).getD ""] ++ [pyStrip cn] =
            [(dictGet NEGATIVE_PRESETS preset).getD "", pyStrip cn] := rfl
        rw [hl2, joinParts_two hl hcn]
        simp only [rednoteNegSpec, negCombineSpec]
        rw [if_neg hp, if_pos hl, if_pos hcn, if_pos hl]
      · rw [if_neg hl]
        have hl2 : [REDNOTE_NEG_BASE] ++ [pyStrip cn] =
            [REDNOTE_NEG_BASE, pyStrip cn] := rfl
        rw [hl2, joinParts_two hb hcn]
        simp only [rednoteNegSpec, negCombineSpec]
        rw [if_neg hp, if_neg hl, if_pos hcn, if_pos hb]
  · rw [if_neg hcn]
    by_cases hp : preset = "RedNote"
    · rw [if_pos hp, joinParts_two hb hs]
      simp only [rednoteNegSpec, negCombineSpec]
      rw [if_pos hp, if_neg hcn]
    · rw [if_neg hp]
      by_cases hl : (dictGet NEGATIVE_PRESETS preset).getD "" ≠ ""
      · rw [if_pos hl, joinParts_one hl]
        simp only [rednoteNegSpec, negCombineSpec]
        rw [if_neg hp, if_pos hl, if_neg hcn]
      · rw [if_neg hl, joinParts_one hb]
        simp only [rednoteNegSpec, negCombineSpec]
        rw [if_neg hp, if_neg hl, if_neg hcn]

/-- C8 (amended): on the success path, the loader, batch and combiner nodes
return exactly the claimed negative — the selected preset's negative block with
the trimmed custom appended via `", "` when non-empty, the trimmed custom alone
when the block is empty, and `""` when both are absent; the RedNote node in the
tag dialect instead uses base+safety for the "RedNote" preset and falls back to
its base negative block when the preset's negative is empty, so its negative is
never the custom text alone nor empty. -/
theorem c8_negative_prompt_amended (fs : FileReader) (rb : Rb) (pf sf : String)
    (idx start_index batch_size csi ssi char_count style_count : Nat)
    (mode preset target_model : String) (mood : ℚ) (lock ra rbg rc : Bool)
    (cp cn : String) :
    (∀ content, fs (get_prompt_file_path pf) = .ok content →
      parse_prompt_file content ≠ [] →
      (∃ r, load_prompt fs rb pf idx mode preset ra rbg rc cp cn = .ok r) ∧
      (∀ r, load_prompt fs rb pf idx mode preset ra rbg rc cp cn = .ok r →
        r.2.1 = negCombineSpec (presetNegBlock preset) cn)) ∧
    (∀ content, fs (get_prompt_file_path pf) = .ok content →
      parse_prompt_file content ≠ [] →
      (∃ r, load_batch fs rb pf start_index batch_size preset ra rbg rc cp cn = .ok r) ∧
      (∀ r, load_batch fs rb pf start_index batch_size preset ra rbg rc cp cn = .ok r →
        r.2 = negCombineSpec (presetNegBlock preset) cn)) ∧
    (∀ content1 content2, fs (get_prompt_file_path pf) = .ok content1 →
      fs (get_prompt_file_path sf) = .ok content2 →
      parse_prompt_file content1 ≠ [] → parse_prompt_file content2 ≠ [] →
      char_count * style_count ≤ MAX_TOTAL_PROMPTS →
      (∃ r, combine_prompts fs rb pf sf csi ssi char_count style_count preset ra rbg rc
        cp cn = .ok r) ∧
      (∀ r, combine_prompts fs rb pf sf csi ssi char_count style_count preset ra rbg rc
          cp cn = .ok r →
        r.2 = negCombineSpec (presetNegBlock preset) cn)) ∧
    (∀ content1 content2, fs (get_prompt_file_path pf) = .ok content1 →
      fs (get_prompt_file_path sf) = .ok content2 →
      parse_prompt_file content1 ≠ [] → target_model ≠ "Flux/Qwen (Natural)" →
      (∃ r, generate_rednote fs rb pf sf target_model start_index batch_size preset mode
        mood lock ra rbg rc cp cn = .ok r) ∧
      (∀ r, generate_rednote fs rb pf sf target_model start_index batch_size preset mode
          mood lock ra rbg rc cp cn = .ok r →
        r.2.1 = rednoteNegSpec preset cn)) := by
  refine ⟨?_, ?_, ?_, ?_⟩
  · intro content h hne
    simp only [load_prompt, h]
    rw [if_neg hne]
    refine ⟨⟨_, rfl⟩, ?_⟩
    intro r hr
    injection hr with hr
    rw [← hr]
    rfl
  · intro content h hne
    simp only [load_batch, h]
    rw [if_neg hne]
    refine ⟨⟨_, rfl⟩, ?_⟩
    intro r hr
    injection hr with hr
    rw [← hr]
    rfl
  · intro c1 c2 h1 h2 hne1 hne2 hcap
    simp only [combine_prompts, h1, h2]
    rw [if_neg hne1, if_neg hne2, if_neg (by omega : ¬ char_count * style_count >
      MAX_TOTAL_PROMPTS)]
    refine ⟨⟨_, rfl⟩, ?_⟩
    intro r hr
    injection hr with hr
    rw [← hr]
    rfl
  · intro c1 c2 h1 h2 hne1 hflux
    simp only [generate_rednote, h1, h2]
    rw [if_neg hne1, if_neg hflux]
    refine ⟨⟨_, rfl⟩, ?_⟩
    intro r hr
    injection hr with hr
    rw [← hr]
    show joinParts _ = _
    exact rednote_negative_eq preset cn

set_option maxRecDepth 10000 in
/-- C8 counterexample: the RedNote node in the tag dialect with preset
`"none"` (whose negative block is empty) and no custom negative returns its
base negative block, not the empty string the claim requires. -/
theorem c8_counterexample :
    (generate_rednote (fun _ => .ok "girl\n") (fun _ _ => 0) "c.txt" "s.txt"
        "Illustrious (Tags)" 0 1 "none" "sequential" (mkRat 5 10) true false false
        false "" "").toOption.map (fun r => r.2.1) = some REDNOTE_NEG_BASE ∧
    REDNOTE_NEG_BASE ≠ "" :=
  ⟨by decide, by decide⟩

/-- Witness for C8: loader with the `standard` preset and a custom negative. -/
theorem c8_negative_prompt_amended_witness :
    (load_prompt (fun _ => .ok "girl\n") (fun _ _ => 0) "c.txt" 0 "sequential"
        "standard" false false false "" " extra ").toOption.map (fun r => r.2.1) =
      some (negCombineSpec (presetNegBlock "standard") " extra ") := by
  have h := (c8_negative_prompt_amended (fun _ => .ok "girl\n") (fun _ _ => 0)
    "c.txt" "s.txt" 0 0 1 0 0 1 1 "sequential" "standard" "Illustrious (Tags)"
    (mkRat 5 10) false false false false "" " extra ").1 "girl\n" rfl (by decide)
  obtain ⟨r, hr⟩ := h.1
  rw [hr]
  simp [Except.toOption, h.2 r hr]

/-! ### Claim C2 — the combiner cross-product -/

/-- One combiner item consumes one draw per enabled flag. -/
theorem combinerItem_pos (rb : Rb) (styles : List PromptEntry) (ssi : Nat)
    (clean_preset : String) (ra rbg rc : Bool) (cp : String) (char : PromptEntry)
    (j pos : Nat) :
    (combinerItem rb styles ssi clean_preset ra rbg rc cp char j pos).2 =
      pos + itemDraws ra rbg rc := by
  simp only [combinerItem, itemDraws]
  cases ra <;> cases rbg <;> cases rc <;> simp

/-- Stream position after the inner (style) loop. -/
theorem combinerStyleLoop_pos (rb : Rb) (styles : List PromptEntry) (ssi : Nat)
    (clean_preset : String) (ra rbg rc : Bool) (cp : String) (char : PromptEntry) :
    ∀ (n j pos : Nat),
      (combinerStyleLoop rb styles ssi clean_preset ra rbg rc cp char n j pos).2 =
        pos + n * itemDraws ra rbg rc := by
  intro n
  induction n with
  | zero =>
    intro j pos
    simp [combinerStyleLoop]
  | succ m ih =>
    intro j pos
    simp only [combinerStyleLoop]
    rw [ih, combinerItem_pos]
    ring

/-- Length of the inner (style) loop output. -/
theorem combinerStyleLoop_length (rb : Rb) (styles : List PromptEntry) (ssi : Nat)
    (clean_preset : String) (ra rbg rc : Bool) (cp : String) (char : PromptEntry) :
    ∀ (n j pos : Nat),
      (combinerStyleLoop rb styles ssi clean_preset ra rbg rc cp char n j pos).1.length =
        n := by
  intro n
  induction n with
  | zero =>
    intro j pos
    simp [combinerStyleLoop]
  | succ m ih =>
    intro j pos
    simp only [combinerStyleLoop, List.length_cons]
    rw [ih]

/-- The `k`-th prompt of the inner loop is the item at style offset `j + k`,
drawn from stream position `pos + k` draws later. -/
theorem combinerStyleLoop_get (rb : Rb) (styles : List PromptEntry) (ssi : Nat)
    (clean_preset : String) (ra rbg rc : Bool) (cp : String) (char : PromptEntry) :
    ∀ (n j pos k : Nat), k < n →
      (combinerStyleLoop rb styles ssi clean_preset ra rbg rc cp char n j pos).1.get? k =
        some ((combinerItem rb styles ssi clean_preset ra rbg rc cp char (j + k)
          (pos + k * itemDraws ra rbg rc)).1) := by
  intro n
  induction n with
  | zero =>
    intro j pos k hk
    omega
  | succ m ih =>
    intro j pos k hk
    simp only [combinerStyleLoop]
    cases k with
    | zero => simp
    | succ k' =>
      show (combinerStyleLoop rb styles ssi clean_preset ra rbg rc cp char m (j + 1)
          (combinerItem rb styles ssi clean_preset ra rbg rc cp char j pos).2).1.get? k' = _
      rw [combinerItem_pos, ih (j + 1) _ k' (by omega)]
      have e1 : j + 1 + k' = j + (k' + 1) := by omega
      have e2 : pos + itemDraws ra rbg rc + k' * itemDraws ra rbg rc =
          pos + (k' + 1) * itemDraws ra rbg rc := by ring
      rw [e1, e2]

/-- Length of the outer (character) loop output. -/
theorem combinerCharLoop_length (rb : Rb) (characters styles : List PromptEntry)
    (csi ssi sc : Nat) (clean_preset : String) (ra rbg rc : Bool) (cp : String) :
    ∀ (n i pos : Nat),
      (combinerCharLoop rb characters styles csi ssi sc clean_preset ra rbg rc cp
        n i pos).1.length = n * sc := by
  intro n
  induction n with
  | zero =>
    intro i pos
    simp [combinerCharLoop]
  | succ m ih =>
    intro i pos
    simp only [combinerCharLoop, List.length_append]
    rw [ih, combinerStyleLoop_length]
    ring

/-- The flat output of the outer loop at index `i * sc + j` is the item for the
`i`-th character (index `(csi + start + i) mod len`) and style offset `j`. -/
theorem combinerCharLoop_get (rb : Rb) (characters styles : List PromptEntry)
    (csi ssi sc : Nat) (clean_preset : String) (ra rbg rc : Bool) (cp : String) :
    ∀ (n i0 pos i j : Nat), i < n → j < sc →
      (combinerCharLoop rb characters styles csi ssi sc clean_preset ra rbg rc cp
          n i0 pos).1.get? (i * sc + j) =
        some ((combinerItem rb styles ssi clean_preset ra rbg rc cp
          (characters.getD ((csi + (i0 + i)) % characters.length) ⟨"", ""⟩) j
          (pos + (i * sc + j) * itemDraws ra rbg rc)).1) := by
  intro n
  induction n with
  | zero =>
    intro i0 pos i j hi hj
    omega
  | succ m ih =>
    intro i0 pos i j hi hj
    simp only [combinerCharLoop]
    have hlen : (combinerStyleLoop rb styles ssi clean_preset ra rbg rc cp
        (characters.getD ((csi + i0) % characters.length) ⟨"", ""⟩) sc 0 pos).1.length =
        sc := combinerStyleLoop_length rb styles ssi clean_preset ra rbg rc cp _ sc 0 pos
    cases i with
    | zero =>
      have hidx : (0 : Nat) * sc + j = j := by ring
      rw [hidx, List.get?_append (by rw [hlen]; exact hj)]
      rw [combinerStyleLoop_get rb styles ssi clean_preset ra rbg rc cp _ sc 0 pos j hj]
      have e1 : (0 : Nat) + j = j := by omega
      have e3 : i0 + 0 = i0 := by omega
      rw [e1, e3]
    | succ i' =>
      have hge : sc ≤ (i' + 1) * sc + j := by
        have : (i' + 1) * sc + j = sc + (i' * sc + j) := by ring
        omega
      rw [List.get?_append_right (by rw [hlen]; exact hge), hlen]
      have e : (i' + 1) * sc + j - sc = i' * sc + j := by
        have : (i' + 1) * sc + j = i' * sc + j + sc := by ring
        omega
      rw [e, combinerStyleLoop_pos]
      rw [ih (i0 + 1) _ i' j (by omega) hj]
      have e1 : csi + (i0 + 1 + i') = csi + (i0 + (i' + 1)) := by omega
      have e2 : pos + sc * itemDraws ra rbg rc + (i' * sc + j) * itemDraws ra rbg rc =
          pos + ((i' + 1) * sc + j) * itemDraws ra rbg rc := by ring
      rw [e1, e2]

/-- C2: with both files parsing non-empty, the combiner returns exactly
`char_count × style_count` prompts when the product is within the cap: the
prompt at flat index `i * style_count + j` (style varying fastest) uses the
character at `(char_start_index + i) mod len(characters)` and the style at
`(style_start_index + j) mod len(styles)` (the style index is resolved inside
`combinerItem`); when the product exceeds 100 it returns the single-element
error list and an empty negative. -/
theorem c2_combiner_cross_product (fs : FileReader) (rb : Rb) (pf sf : String)
    (csi ssi char_count style_count : Nat) (preset : String) (ra rbg rc : Bool)
    (cp cn : String) (content1 content2 : String)
    (h1 : fs (get_prompt_file_path pf) = .ok content1)
    (h2 : fs (get_prompt_file_path sf) = .ok content2)
    (hne1 : parse_prompt_file content1 ≠ [])
    (hne2 : parse_prompt_file content2 ≠ []) :
    (char_count * style_count ≤ MAX_TOTAL_PROMPTS →
      (∃ r, combine_prompts fs rb pf sf csi ssi char_count style_count preset
        ra rbg rc cp cn = .ok r) ∧
      (∀ r, combine_prompts fs rb pf sf csi ssi char_count style_count preset
          ra rbg rc cp cn = .ok r →
        r.1.length = char_count * style_count ∧
        (∀ i j, i < char_count → j < style_count →
          r.1.get? (i * style_count + j) =
            some ((combinerItem rb (parse_prompt_file content2) ssi
              (presetCleanBlock preset) ra rbg rc cp
              ((parse_prompt_file content1).getD
                ((csi + i) % (parse_prompt_file content1).length) ⟨"", ""⟩) j
              ((i * style_count + j) * itemDraws ra rbg rc)).1)))) ∧
    (char_count * style_count > MAX_TOTAL_PROMPTS →
      combine_prompts fs rb pf sf csi ssi char_count style_count preset ra rbg rc cp cn =
        .ok (["Error: Total prompts (" ++ toString (char_count * style_count) ++
          ") exceeds max (" ++ toString MAX_TOTAL_PROMPTS ++ ")"], "")) := by
  constructor
  · intro hcap
    simp only [combine_prompts, h1, h2]
    rw [if_neg hne1, if_neg hne2,
      if_neg (by omega : ¬ char_count * style_count > MAX_TOTAL_PROMPTS)]
    refine ⟨⟨_, rfl⟩, ?_⟩
    intro r hr
    injection hr with hr
    rw [← hr]
    constructor
    · exact combinerCharLoop_length rb _ _ csi ssi style_count _ ra rbg rc cp
        char_count 0 0
    · intro i j hi hj
      have hg := combinerCharLoop_get rb (parse_prompt_file content1)
        (parse_prompt_file content2) csi ssi style_count (presetCleanBlock preset)
        ra rbg rc cp char_count 0 0 i j hi hj
      have e1 : csi + (0 + i) = csi + i := by omega
      have e2 : (0 : Nat) + (i * style_count + j) * itemDraws ra rbg rc =
          (i * style_count + j) * itemDraws ra rbg rc := by omega
      rw [e1, e2] at hg
      exact hg
  · intro hcap
    simp only [combine_prompts, h1, h2]
    rw [if_neg hne1, if_neg hne2, if_pos hcap]

/-- Witness for C2: two characters × three styles (within the cap) and the
claim's 11 × 10 over-cap example. -/
theorem c2_combiner_cross_product_witness :
    (combine_prompts
        (fun p => if p = "prompts/c.txt" then .ok "a\nb\n" else .ok "s1\ns2\ns3\n")
        (fun _ _ => 0) "c.txt" "s.txt" 1 2 2 3 "standard" false false false ""
        "").toOption.map (fun r => r.1.length) = some 6 ∧
    (combine_prompts
        (fun p => if p = "prompts/c.txt" then .ok "a\nb\n" else .ok "s1\ns2\ns3\n")
        (fun _ _ => 0) "c.txt" "s.txt" 1 2 2 3 "standard" false false false ""
        "").toOption.map (fun r => r.1.get? 5) =
      some (some ((combinerItem (fun _ _ => 0)
        (parse_prompt_file "s1\ns2\ns3\n") 2 (presetCleanBlock "standard")
        false false false ""
        ((parse_prompt_file "a\nb\n").getD
          ((1 + 1) % (parse_prompt_file "a\nb\n").length) ⟨"", ""⟩) 2
        (5 * itemDraws false false false)).1)) ∧
    combine_prompts
        (fun p => if p = "prompts/c.txt" then .ok "a\nb\n" else .ok "s1\ns2\ns3\n")
        (fun _ _ => 0) "c.txt" "s.txt" 1 2 11 10 "standard" false false false "" "" =
      .ok (["Error: Total prompts (" ++ toString (11 * 10) ++ ") exceeds max (" ++
        toString MAX_TOTAL_PROMPTS ++ ")"], "") := by
  have h := c2_combiner_cross_product
    (fun p => if p = "prompts/c.txt" then .ok "a\nb\n" else .ok "s1\ns2\ns3\n")
    (fun _ _ => 0) "c.txt" "s.txt" 1 2 2 3 "standard" false false false "" ""
    "a\nb\n" "s1\ns2\ns3\n" (by decide) (by decide) (by decide) (by decide)
  have hbig := c2_combiner_cross_product
    (fun p => if p = "prompts/c.txt" then .ok "a\nb\n" else .ok "s1\ns2\ns3\n")
    (fun _ _ => 0) "c.txt" "s.txt" 1 2 11 10 "standard" false false false "" ""
    "a\nb\n" "s1\ns2\ns3\n" (by decide) (by decide) (by decide) (by decide)
  obtain ⟨⟨r, hr⟩, hP⟩ := h.1 (by decide)
  refine ⟨?_, ?_, hbig.2 (by decide)⟩
  · rw [hr]
    simp [Except.toOption, (hP r hr).1]
  · rw [hr]
    have hg := (hP r hr).2 1 2 (by decide) (by decide)
    simp only [Except.toOption, Option.map_some']
    rw [show (1 : Nat) * 3 + 2 = 5 from by omega] at hg
    rw [hg]

/-! ### Claim C7 — safety-shorts insertion -/


/-- A mid-list pattern survives appending one element on the right. -/
theorem exmid_append_one {P : List String} {a s : String}
    (h : ∃ l1 l2, P = l1 ++ a :: s :: l2) (y : String) :
    ∃ l1 l2, P ++ [y] = l1 ++ a :: s :: l2 := by
  obtain ⟨l1, l2, hP⟩ := h
  exact ⟨l1, l2 ++ [y], by simp [hP]⟩

/-- A mid-list pattern survives a conditional one-element append. -/
theorem exmid_ite {P : List String} {a s : String}
    (h : ∃ l1 l2, P = l1 ++ a :: s :: l2) (b : Prop) [Decidable b] (y : String) :
    ∃ l1 l2, (if b then P ++ [y] else P) = l1 ++ a :: s :: l2 := by
  split
  · exact exmid_append_one h y
  · exact h

/-- Non-membership survives appending one distinct element. -/
theorem not_mem_append_one {P : List String} {s y : String}
    (h : s ∉ P) (hy : y ≠ s) : s ∉ P ++ [y] := by
  intro hmem
  rcases List.mem_append.mp hmem with hm | hm
  · exact h hm
  · simp at hm
    exact hy hm.symm

/-- Non-membership survives a conditional one-element append of a distinct
element. -/
theorem not_mem_ite {P : List String} {s y : String}
    (h : s ∉ P) (hy : y ≠ s) (b : Prop) [Decidable b] :
    s ∉ (if b then P ++ [y] else P) := by
  split
  · exact not_mem_append_one h hy
  · exact h

/-- No positive preset block equals the safety-shorts fragment. -/
theorem presets_getD_ne_shorts (p : String) :
    (dictGet PRESETS p).getD "" ≠ REDNOTE_SAFETY_SHORTS := by
  rcases hm : dictGet PRESETS p with _ | v
  · simp only [Option.getD_none]
    decide
  · simp only [Option.getD_some]
    simp only [dictGet, Option.map_eq_some'] at hm
    obtain ⟨q, hq, hv⟩ := hm
    have hqm : q ∈ PRESETS := List.mem_of_find?_eq_some hq
    have hall : ∀ x ∈ PRESETS, x.2 ≠ REDNOTE_SAFETY_SHORTS := by decide
    rw [← hv]
    exact hall q hqm

/-- A default-or-member of a list avoiding `s` avoids `s`. -/
theorem getD_ne_of_all {l : List String} {d s : String}
    (hall : ∀ x ∈ l, x ≠ s) (hd : d ≠ s) (n : Nat) : l.getD n d ≠ s := by
  rw [List.getD_eq_getD_get?]
  rcases h : l.get? n with _ | v
  · simpa using hd
  · have : v ∈ l := List.get?_mem h
    simpa using hall v this

/-- The core mid-list pattern: the action then the shorts, just appended. -/
theorem exmid_core (X : List String) (a s : String) :
    ∃ l1 l2, (X ++ [a]) ++ [s] = l1 ++ a :: s :: l2 :=
  ⟨X, [], by simp⟩

/-- No mood phrase equals the safety-shorts fragment. -/
theorem mood_ne_shorts (q : ℚ) : get_mood_prompt q ≠ REDNOTE_SAFETY_SHORTS := by
  unfold get_mood_prompt
  split_ifs <;> decide

set_option maxRecDepth 10000 in
/-- C7 (amended): `needs_safety_shorts` holds exactly on the three
case-sensitive trigger substrings, and in the RedNote node's TAG dialect the
safety-shorts fragment is appended immediately after the chosen action iff
action randomization is on and the chosen action triggers; the natural-language
dialect never inserts it (see the counterexample). -/
theorem c7_safety_shorts_amended (ctx : RednoteCtx) (entry : PromptEntry)
    (style_tag : String) (pos : Nat) (a : String) :
    (needs_safety_shorts a =
      (pyIn "sitting" a || (pyIn "hugging" a || pyIn "lying" a))) ∧
    (ctx.random_action = true →
      needs_safety_shorts (pyChoice ctx.rb pos ACTIONS) = true →
      ∃ l1 l2, (rednoteTagParts ctx entry style_tag pos).1 =
        l1 ++ pyChoice ctx.rb pos ACTIONS :: REDNOTE_SAFETY_SHORTS :: l2) ∧
    (style_tag ≠ REDNOTE_SAFETY_SHORTS →
      pyRStripSet [','] (pyStrip entry.tags) ≠ REDNOTE_SAFETY_SHORTS →
      ctx.custom_positive ≠ REDNOTE_SAFETY_SHORTS →
      (ctx.random_action = false ∨
        needs_safety_shorts (pyChoice ctx.rb pos ACTIONS) = false) →
      REDNOTE_SAFETY_SHORTS ∉ (rednoteTagParts ctx entry style_tag pos).1) := by
  have hact_list : ∀ x ∈ ACTIONS, x ≠ REDNOTE_SAFETY_SHORTS := by decide
  have hbg_list : ∀ x ∈ BACKGROUNDS, x ≠ REDNOTE_SAFETY_SHORTS := by decide
  have hcam_list : ∀ x ∈ CAMERA_EFFECTS, x ≠ REDNOTE_SAFETY_SHORTS := by decide
  have hempty : ("" : String) ≠ REDNOTE_SAFETY_SHORTS := by decide
  refine ⟨?_, ?_, ?_⟩
  · simp [needs_safety_shorts, SAFETY_TRIGGER_KEYWORDS]
  · intro hra htrig
    have htrig' : (["sitting", "hugging", "lying"].any
        (fun x => pyIn x (pyChoice ctx.rb pos ACTIONS))) = true := htrig
    simp only [rednoteTagParts, hra, if_true, htrig']
    apply exmid_ite
    apply exmid_ite
    apply exmid_append_one
    apply exmid_ite
    apply exmid_ite
    exact exmid_core _ _ _
  · intro hst hchar hcust hdisj
    have hq : QUALITY_TAGS ≠ REDNOTE_SAFETY_SHORTS := by decide
    have hrs : pyStrip (pyLStripSet [',', ' '] REDNOTE_STYLE) ≠ REDNOTE_SAFETY_SHORTS := by
      decide
    have hrc : pyStrip (pyLStripSet [',', ' '] REDNOTE_CHARACTER) ≠
        REDNOTE_SAFETY_SHORTS := by decide
    have hpt : (dictGet PRESETS ctx.preset).getD "" ≠ REDNOTE_SAFETY_SHORTS :=
      presets_getD_ne_shorts ctx.preset
    have hmood : get_mood_prompt ctx.mood_level ≠ REDNOTE_SAFETY_SHORTS :=
      mood_ne_shorts ctx.mood_level
    have hact : pyChoice ctx.rb pos ACTIONS ≠ REDNOTE_SAFETY_SHORTS :=
      getD_ne_of_all hact_list hempty _
    have hbg : ∀ k, pyChoice ctx.rb k BACKGROUNDS ≠ REDNOTE_SAFETY_SHORTS :=
      fun k => getD_ne_of_all hbg_list hempty _
    have hcam : ∀ k, pyChoice ctx.rb k CAMERA_EFFECTS ≠ REDNOTE_SAFETY_SHORTS :=
      fun k => getD_ne_of_all hcam_list hempty _
    have base : REDNOTE_SAFETY_SHORTS ∉
        (if ctx.preset = "RedNote" then
          ([] : List String) ++ [QUALITY_TAGS] ++ [pyStrip (pyLStripSet [',', ' '] REDNOTE_STYLE)]
         else
          if (dictGet PRESETS ctx.preset).getD "" ≠ "" then
            ([] : List String) ++ [(dictGet PRESETS ctx.preset).getD ""]
          else []) := by
      split_ifs <;> simp [Ne.symm hq, Ne.symm hrs, Ne.symm hpt]
    rcases hdisj with hra | htrig
    · simp only [rednoteTagParts, hra, Bool.false_eq_true, if_false]
      apply not_mem_ite _ hcust
      apply not_mem_ite _ hrc
      apply not_mem_append_one _ hmood
      apply not_mem_ite _ (hcam _)
      apply not_mem_ite _ (hbg _)
      apply not_mem_append_one _ hchar
      apply not_mem_ite _ hst
      exact base
    · have htrig' : (["sitting", "hugging", "lying"].any
          (fun x => pyIn x (pyChoice ctx.rb pos ACTIONS))) = false := htrig
      simp only [rednoteTagParts, htrig', Bool.false_eq_true, if_false]
      by_cases hra : ctx.random_action = true
      · simp only [hra, if_true]
        apply not_mem_ite _ hcust
        apply not_mem_ite _ hrc
        apply not_mem_append_one _ hmood
        apply not_mem_ite _ (hcam _)
        apply not_mem_ite _ (hbg _)
        apply not_mem_append_one _ hact
        apply not_mem_append_one _ hchar
        apply not_mem_ite _ hst
        exact base
      · simp only [hra, if_false]
        apply not_mem_ite _ hcust
        apply not_mem_ite _ hrc
        apply not_mem_append_one _ hmood
        apply not_mem_ite _ (hcam _)
        apply not_mem_ite _ (hbg _)
        apply not_mem_append_one _ hchar
        apply not_mem_ite _ hst
        exact base

set_option maxRecDepth 40000 in
/-- C7 counterexample: in the natural-language (Flux/Qwen) dialect of the
RedNote node, with action randomization on and a chosen action containing
"sitting", the safety-shorts fragment appears nowhere in the produced prompt —
so the claimed iff fails when the dialect is not the tag one. -/
theorem c7_counterexample :
    needs_safety_shorts (ACTIONS.getD 9 "") = true ∧
    (generate_rednote (fun p => if p = "prompts/c.txt" then .ok "girl\n" else .ok "")
        (fun _ _ => 9) "c.txt" "s.txt" "Flux/Qwen (Natural)" 0 1 "RedNote" "sequential"
        (mkRat 5 10) false true false false "" "").toOption.map
      (fun r => r.1.map (fun s => pyIn REDNOTE_SAFETY_SHORTS s)) = some [false] :=
  ⟨by decide, by decide⟩

/-- Witness for C7 in the tag dialect: a triggering action yields the shorts
fragment in the parts list, a non-triggering one does not. -/
theorem c7_safety_shorts_amended_witness :
    REDNOTE_SAFETY_SHORTS ∈
      (rednoteTagParts
        ⟨(fun _ _ => 9), [⟨"girl", ""⟩], [], "Illustrious (Tags)", 0, "RedNote",
          "sequential", mkRat 5 10, false, true, false, false, ""⟩
        ⟨"girl", ""⟩ "" 0).1 ∧
    REDNOTE_SAFETY_SHORTS ∉
      (rednoteTagParts
        ⟨(fun _ _ => 0), [⟨"girl", ""⟩], [], "Illustrious (Tags)", 0, "RedNote",
          "sequential", mkRat 5 10, false, true, false, false, ""⟩
        ⟨"girl", ""⟩ "" 0).1 := by
  constructor
  · obtain ⟨l1, l2, hp⟩ :=
      (c7_safety_shorts_amended
        ⟨(fun _ _ => 9), [⟨"girl", ""⟩], [], "Illustrious (Tags)", 0, "RedNote",
          "sequential", mkRat 5 10, false, true, false, false, ""⟩
        ⟨"girl", ""⟩ "" 0 "").2.1 rfl (by decide)
    rw [hp]
    simp
  · exact (c7_safety_shorts_amended
      ⟨(fun _ _ => 0), [⟨"girl", ""⟩], [], "Illustrious (Tags)", 0, "RedNote",
        "sequential", mkRat 5 10, false, true, false, false, ""⟩
      ⟨"girl", ""⟩ "" 0 "").2.2 (by decide) (by decide) (by decide)
      (Or.inr (by decide))

/-! ### Claim C9 — the natural-language (Flux/Qwen) dialect -/

/-- The mood phrase is never empty. -/
theorem mood_ne_empty (q : ℚ) : get_mood_prompt q ≠ "" := by
  unfold get_mood_prompt
  split_ifs <;> decide

/-- The flux branch consumes one draw per enabled flag. -/
theorem rednoteFluxPrompt_pos (ctx : RednoteCtx) (entry : PromptEntry)
    (style_tag : String) (pos : Nat) :
    (rednoteFluxPrompt ctx entry style_tag pos).2 =
      pos + itemDraws ctx.random_action ctx.random_background ctx.random_camera := by
  simp only [rednoteFluxPrompt, itemDraws]
  rcases ctx.random_action with _ | _ <;> rcases ctx.random_background with _ | _ <;>
    rcases ctx.random_camera with _ | _ <;> simp

/-- The tag branch consumes one draw per enabled flag. -/
theorem rednoteTagParts_pos (ctx : RednoteCtx) (entry : PromptEntry)
    (style_tag : String) (pos : Nat) :
    (rednoteTagParts ctx entry style_tag pos).2 =
      pos + itemDraws ctx.random_action ctx.random_background ctx.random_camera := by
  simp only [rednoteTagParts, itemDraws]
  rcases ctx.random_action with _ | _ <;> rcases ctx.random_background with _ | _ <;>
    rcases ctx.random_camera with _ | _ <;> simp

/-- One batch item of `generate_rednote` consumes `rednoteItemDraws ctx` draws. -/
theorem rednoteItem_pos (ctx : RednoteCtx) (i pos : Nat) :
    (rednoteItem ctx i pos).2.2.2 = pos + rednoteItemDraws ctx := by
  simp only [rednoteItem, rednoteItemDraws]
  by_cases hm : ctx.mode = "random" <;>
    by_cases hs : ctx.styles ≠ [] <;>
      rcases hl : ctx.enable_style_lock with _ | _ <;>
        by_cases hf : ctx.target_model = "Flux/Qwen (Natural)" <;>
          simp only [hm, hs, hl, hf, if_true, if_false, rednoteFluxPrompt_pos,
            rednoteTagParts_pos, ite_true, ite_false, not_true, not_false_iff,
            Bool.not_false, Bool.not_true, and_true, and_false, if_neg, if_pos] <;>
          simp [hm, hs, hf, rednoteFluxPrompt_pos, rednoteTagParts_pos] <;> omega

/-- Length of the `generate_rednote` batch loop output. -/
theorem rednoteLoop_length (ctx : RednoteCtx) :
    ∀ (n i pos : Nat), (rednoteLoop ctx n i pos).1.length = n := by
  intro n
  induction n with
  | zero =>
    intro i pos
    simp [rednoteLoop]
  | succ m ih =>
    intro i pos
    simp only [rednoteLoop, List.length_cons]
    rw [ih]

/-- The `k`-th prompt of the batch loop is the item for batch index `i + k`
drawn `k` items further along the stream. -/
theorem rednoteLoop_get (ctx : RednoteCtx) :
    ∀ (n i pos k : Nat), k < n →
      (rednoteLoop ctx n i pos).1.get? k =
        some ((rednoteItem ctx (i + k) (pos + k * rednoteItemDraws ctx)).1) := by
  intro n
  induction n with
  | zero =>
    intro i pos k hk
    omega
  | succ m ih =>
    intro i pos k hk
    simp only [rednoteLoop]
    cases k with
    | zero => simp
    | succ k' =>
      show (rednoteLoop ctx m (i + 1) (rednoteItem ctx i pos).2.2.2).1.get? k' = _
      rw [rednoteItem_pos, ih (i + 1) _ k' (by omega)]
      have e1 : i + 1 + k' = i + (k' + 1) := by omega
      have e2 : pos + rednoteItemDraws ctx + k' * rednoteItemDraws ctx =
          pos + (k' + 1) * rednoteItemDraws ctx := by ring
      rw [e1, e2]

/-- The flux branch, flattened to the amended claim's shape: lead-in, then
connector-introduced action/background/mood sentences, then the style sentence
under the style prefix, then the bare camera fragment, then the bare cleaned
custom text. -/
theorem rednoteFluxPrompt_eq_spec (ctx : RednoteCtx) (entry : PromptEntry)
    (style_tag : String) (pos : Nat) :
    (rednoteFluxPrompt ctx entry style_tag pos).1 =
      fluxPromptSpec ctx entry style_tag pos := by
  have hmood := mood_ne_empty ctx.mood_level
  have hct0 : clean_tag "" = "" := rfl
  have hdot : ∀ x : String, "." ++ (" " ++ x) = ". " ++ x := by
    intro x
    rw [← String.append_assoc]
    rfl
  simp only [rednoteFluxPrompt, fluxPromptSpec]
  rw [if_pos hmood]
  rcases hra : ctx.random_action with _ | _ <;>
    rcases hrbg : ctx.random_background with _ | _ <;>
      rcases hrc : ctx.random_camera with _ | _ <;>
        by_cases hst : style_tag = "" <;>
          by_cases hcp : ctx.custom_positive = "" <;>
            by_cases hcs : clean_tag style_tag = "" <;>
              simp [hra, hrbg, hrc, hst, hcp, hcs, hct0, String.append_assoc, hdot] <;>
              split_ifs <;>
              simp_all [String.append_assoc, hdot]

/-- C9 (amended): in the natural-language (Flux/Qwen) dialect each produced
prompt is the fixed lead-in with the cleaned character name and tags, followed
by connector-introduced sentences for action, background and mood (always
present), the style sentence introduced by the style prefix when the cleaned
style is non-empty, the cleaned camera fragment appended as a bare sentence
with NO connector (`FLUX_CONNECTORS["camera"]` is unused), and the cleaned
custom positive text appended bare; the returned negative prompt is always the
empty string. -/
theorem c9_flux_dialect_amended (fs : FileReader) (rb : Rb) (pf sf : String)
    (start_index batch_size : Nat) (preset mode : String) (mood : ℚ)
    (lock ra rbg rc : Bool) (cp cn : String) (content1 content2 : String)
    (h1 : fs (get_prompt_file_path pf) = .ok content1)
    (h2 : fs (get_prompt_file_path sf) = .ok content2)
    (hne : parse_prompt_file content1 ≠ []) :
    (∀ (ctx : RednoteCtx) (entry : PromptEntry) (style_tag : String) (pos : Nat),
      (rednoteFluxPrompt ctx entry style_tag pos).1 =
        fluxPromptSpec ctx entry style_tag pos) ∧
    (∃ r, generate_rednote fs rb pf sf "Flux/Qwen (Natural)" start_index batch_size
      preset mode mood lock ra rbg rc cp cn = .ok r) ∧
    (∀ r, generate_rednote fs rb pf sf "Flux/Qwen (Natural)" start_index batch_size
        preset mode mood lock ra rbg rc cp cn = .ok r →
      r.2.1 = "" ∧ r.1.length = batch_size ∧
      (∀ k, k < batch_size → r.1.get? k =
        some ((rednoteItem
          ⟨rb, parse_prompt_file content1, parse_prompt_file content2,
            "Flux/Qwen (Natural)", start_index, preset, mode, mood, lock, ra, rbg,
            rc, cp⟩
          k (k * rednoteItemDraws
            ⟨rb, parse_prompt_file content1, parse_prompt_file content2,
              "Flux/Qwen (Natural)", start_index, preset, mode, mood, lock, ra, rbg,
              rc, cp⟩)).1))) := by
  refine ⟨rednoteFluxPrompt_eq_spec, ?_, ?_⟩
  · simp only [generate_rednote, h1, h2]
    rw [if_neg hne]
    exact ⟨_, rfl⟩
  · intro r hr
    simp only [generate_rednote, h1, h2] at hr
    rw [if_neg hne] at hr
    injection hr with hr
    rw [← hr]
    refine ⟨by simp, ?_, ?_⟩
    · exact rednoteLoop_length _ batch_size 0 0
    · intro k hk
      have hg := rednoteLoop_get
        ⟨rb, parse_prompt_file content1, parse_prompt_file content2,
          "Flux/Qwen (Natural)", start_index, preset, mode, mood, lock, ra, rbg,
          rc, cp⟩ batch_size 0 0 k hk
      simpa using hg

set_option maxRecDepth 40000 in
/-- C9 counterexample: with camera randomization enabled, the cleaned camera
fragment appears in the produced flux prompt but the fixed camera connector
`FLUX_CONNECTORS["camera"]` does not — the camera sentence is not introduced by
any fixed connector phrase, contradicting the claim's "each such sentence
introduced by a fixed connector phrase". -/
theorem c9_counterexample :
    fluxConnector "camera" = "The image is captured" ∧
    (generate_rednote (fun p => if p = "prompts/c.txt" then .ok "girl\n" else .ok "")
        (fun _ _ => 0) "c.txt" "s.txt" "Flux/Qwen (Natural)" 0 1 "RedNote" "sequential"
        (mkRat 5 10) false false false true "" "").toOption.map
      (fun r => r.1.map (fun s =>
        (pyIn (clean_tag (CAMERA_EFFECTS.getD 0 "")) s,
          pyIn "The image is captured" s))) = some [(true, false)] :=
  ⟨by decide, by decide⟩

/-- Witness for C9: a concrete flux-dialect call returns an empty negative and
one prompt per batch item. -/
theorem c9_flux_dialect_amended_witness :
    (generate_rednote (fun p => if p = "prompts/c.txt" then .ok "girl\n" else .ok "")
        (fun _ _ => 0) "c.txt" "s.txt" "Flux/Qwen (Natural)" 0 2 "RedNote" "sequential"
        (mkRat 5 10) false false false false "" "ignored").toOption.map
      (fun r => (r.2.1, r.1.length)) = some ("", 2) := by
  have h := c9_flux_dialect_amended
    (fun p => if p = "prompts/c.txt" then .ok "girl\n" else .ok "")
    (fun _ _ => 0) "c.txt" "s.txt" 0 2 "RedNote" "sequential" (mkRat 5 10)
    false false false false "" "ignored" "girl\n" "" (by decide) (by decide) (by decide)
  obtain ⟨r, hr⟩ := h.2.1
  obtain ⟨hneg, hlen, _⟩ := h.2.2 r hr
  rw [hr]
  simp [Except.toOption, hneg, hlen]
